import Mathlib

/-!
Verification of the SilentVoice gesture-recognition backend.

This file is a shallow embedding, over `ℚ`, of the parts of the Python
backend that the specification's claims are about:

* `backend/services/preprocess.py` — landmark normalisation and flattening;
* `backend/services/asl_dictionary.py` — the sign catalog, feature
  extraction, and the static/dynamic matchers;
* `backend/services/advanced_recognition.py` — the count-based hand-shape
  classifier and the temporal (cooldown) filter;
* `backend/services/inference.py` — the sequence-model adapter;
* `backend/services/confidence_system.py` — the confidence scoring system;
* `backend/model/lstm_model.py` / `backend/model.py` — `prepare_sequence`;
* `backend/api.py` — the rule-based fallback (`analyze_hand_gesture`,
  `process_sign_language`) and the websocket landmarks pipeline
  (arbitration and event emission);
* `backend/websocket_handler.py` — the enhanced handler's emission gate.

Python floats are modelled as rationals.  The one operation that has no
exact rational counterpart, `** 0.5` (square root, used by the openness
metric and the motion-speed metrics), is passed in as an explicit function
argument `sq : ℚ → ℚ`; every theorem that touches it either holds for all
`sq` or only exercises code paths that never evaluate it.
-/

/-- A landmark record whose `x`/`y`/`z` keys may be missing, as accepted at
the data boundary (`landmark.get('x', 0)` in the Python source). -/
structure RawLandmark where
  x? : Option ℚ
  y? : Option ℚ
  z? : Option ℚ
  deriving Repr, DecidableEq

/-- A fully-populated landmark record (after normalisation, or as indexed
directly by the recognisers: `landmark['x']`). -/
structure Landmark where
  x : ℚ
  y : ℚ
  z : ℚ
  deriving Repr, DecidableEq

/-- Coerce a total landmark to the raw (optional-field) form. -/
def Landmark.toRaw (l : Landmark) : RawLandmark :=
  ⟨some l.x, some l.y, some l.z⟩

/-- `backend/services/preprocess.py`, `normalize_landmarks`: truncate to 21
records, clamp `x`,`y` into `[0,1]`, pass `z` through, default missing
coordinates to 0.  Empty input returns the empty list. -/
def normalize_landmarks (landmarks : List RawLandmark) : List Landmark :=
  if landmarks.length = 0 then []
  else
    (landmarks.take 21).map fun l =>
      { x := max 0 (min 1 (l.x?.getD 0))
        y := max 0 (min 1 (l.y?.getD 0))
        z := l.z?.getD 0 }

/-- `backend/services/preprocess.py`, `normalize_hands`: normalise every
non-empty hand, dropping empty ones. -/
def normalize_hands (hands : List (List RawLandmark)) : List (List Landmark) :=
  (hands.filter fun h => h.length ≠ 0).map normalize_landmarks

/-- C4.  For input with at least 21 records the normaliser returns exactly
21 records, with `x`,`y` clamped into `[0,1]`, `z` passed through unclamped
(defaulting to 0 when missing, like `x`/`y`); excess input is truncated
(the output is determined by the first 21 records) and short input is
not padded (its length is preserved). -/
theorem normalize_landmarks_contract (landmarks : List RawLandmark)
    (h21 : 21 ≤ landmarks.length) :
    (normalize_landmarks landmarks).length = 21 ∧
    (∀ l ∈ normalize_landmarks landmarks,
        0 ≤ l.x ∧ l.x ≤ 1 ∧ 0 ≤ l.y ∧ l.y ≤ 1) ∧
    (∀ i : Fin 21,
        ((normalize_landmarks landmarks).getD i ⟨0, 0, 0⟩).z
          = ((landmarks.take 21).getD i ⟨none, none, none⟩).z?.getD 0) ∧
    normalize_landmarks landmarks = normalize_landmarks (landmarks.take 21) ∧
    (∀ short : List RawLandmark, short.length < 21 →
        (normalize_landmarks short).length = short.length) := by
  have hne : landmarks.length ≠ 0 := by omega
  constructor
  · simp [normalize_landmarks, hne]
    omega
  constructor
  · intro l hl
    simp only [normalize_landmarks, if_neg hne, List.mem_map] at hl
    obtain ⟨r, _, rfl⟩ := hl
    refine ⟨le_max_left _ _, ?_, le_max_left _ _, ?_⟩
    · simp only [max_le_iff]
      exact ⟨zero_le_one, min_le_left _ _⟩
    · simp only [max_le_iff]
      exact ⟨zero_le_one, min_le_left _ _⟩
  constructor
  · intro i
    have hlen : (landmarks.take 21).length = 21 := by
      simp [List.length_take]; omega
    have hi : (i : ℕ) < (landmarks.take 21).length := by rw [hlen]; exact i.isLt
    simp only [normalize_landmarks, if_neg hne]
    rw [List.getD_eq_getElem _ _ (by simpa using hi), List.getD_eq_getElem _ _ hi]
    simp
  constructor
  · have hne' : (landmarks.take 21).length ≠ 0 := by
      rw [List.length_take]; omega
    simp [normalize_landmarks, hne, hne', List.take_take]
  · intro short hshort
    by_cases hz : short.length = 0
    · simp [normalize_landmarks, hz]
    · simp [normalize_landmarks, hz, List.length_take]
      omega

/-- Witness for C4 at a concrete 22-record input. -/
theorem normalize_landmarks_contract_witness :
    (List.replicate 22 (RawLandmark.mk (some 2) none (some (-3)))).length ≥ 21 ∧
    (normalize_landmarks
        (List.replicate 22 (RawLandmark.mk (some 2) none (some (-3))))).length = 21 :=
  ⟨by decide,
    (normalize_landmarks_contract
      (List.replicate 22 (RawLandmark.mk (some 2) none (some (-3))))
      (by decide)).1⟩

/-- `backend/services/asl_dictionary.py`, `SignType` (named `ASLSignType`
here because Mathlib already declares a `SignType`). -/
inductive ASLSignType where
  | STATIC
  | DYNAMIC
  | TWO_HANDED
  | FACIAL
  deriving Repr, DecidableEq

/-- `backend/services/asl_dictionary.py`, `SignDefinition`.  `finger_states`
is an insertion-ordered association list standing for the Python dict. -/
structure SignDefinition where
  name : String
  type : ASLSignType
  description : String
  hand_shape : String
  movement : Option String := none
  location : Option String := none
  facial_expression : Option String := none
  two_handed : Bool := false
  finger_states : Option (List (String × Bool)) := none
  hand_orientation : Option String := none
  relative_position : Option String := none
  deriving Repr, DecidableEq

/-- `backend/services/asl_dictionary.py`, `ASL_DICTIONARY`: the full
catalog, in Python dict insertion order. -/
def ASL_DICTIONARY : List (String × SignDefinition) := [
  ("HELLO",
   { name := "HELLO", type := ASLSignType.DYNAMIC,
     description := "Wave hand side to side", hand_shape := "Open hand",
     movement := some "Wave side to side", location := some "Shoulder height",
     finger_states := some [("all", true)], hand_orientation := some "Palm forward" }),
  ("GOODBYE",
   { name := "GOODBYE", type := ASLSignType.DYNAMIC,
     description := "Wave fingers up and down", hand_shape := "Open hand",
     movement := some "Bend fingers repeatedly", location := some "Shoulder height",
     finger_states := some [("all", true)], hand_orientation := some "Palm forward" }),
  ("GOOD_MORNING",
   { name := "GOOD_MORNING", type := ASLSignType.TWO_HANDED,
     description := "Good + Morning signs", hand_shape := "Flat hand to bent hand",
     movement := some "Touch chin then raise arm", two_handed := true }),
  ("HOW_ARE_YOU",
   { name := "HOW_ARE_YOU", type := ASLSignType.DYNAMIC,
     description := "Point forward with bent fingers, pull back", hand_shape := "Bent fingers",
     movement := some "Forward and back", location := some "Chest height" }),
  ("HELP",
   { name := "HELP", type := ASLSignType.TWO_HANDED,
     description := "Fist on flat palm, lift up", hand_shape := "Fist on flat hand",
     movement := some "Lift up together", two_handed := true,
     relative_position := some "Center chest" }),
  ("PLEASE",
   { name := "PLEASE", type := ASLSignType.DYNAMIC,
     description := "Circular motion on chest", hand_shape := "Flat hand",
     movement := some "Circular motion", location := some "Chest",
     hand_orientation := some "Palm on chest" }),
  ("THANK_YOU",
   { name := "THANK_YOU", type := ASLSignType.DYNAMIC,
     description := "Touch chin and move forward", hand_shape := "Flat hand",
     movement := some "Chin to forward", location := some "Start at chin",
     hand_orientation := some "Palm in" }),
  ("SORRY",
   { name := "SORRY", type := ASLSignType.DYNAMIC,
     description := "Circular motion on chest with fist", hand_shape := "Fist (A hand)",
     movement := some "Circular motion", location := some "Chest",
     hand_orientation := some "Palm on chest" }),
  ("EXCUSE_ME",
   { name := "EXCUSE_ME", type := ASLSignType.DYNAMIC,
     description := "Brush fingers across palm", hand_shape := "Bent hand",
     movement := some "Brush across palm", two_handed := true }),
  ("YES",
   { name := "YES", type := ASLSignType.DYNAMIC,
     description := "Fist nodding up and down", hand_shape := "Fist (S hand)",
     movement := some "Nod up and down", location := some "Shoulder height",
     finger_states := some [("all", false)] }),
  ("NO",
   { name := "NO", type := ASLSignType.DYNAMIC,
     description := "Index and middle finger close on thumb",
     hand_shape := "Extended fingers to closed",
     movement := some "Fingers snap closed",
     finger_states := some [("index", true), ("middle", true)],
     location := some "Chest height" }),
  ("MAYBE",
   { name := "MAYBE", type := ASLSignType.DYNAMIC,
     description := "Flat hands alternating up and down", hand_shape := "Flat hands",
     movement := some "Alternating up/down", two_handed := true }),
  ("I_DONT_KNOW",
   { name := "I_DONT_KNOW", type := ASLSignType.DYNAMIC,
     description := "Touch forehead, then palms up shrug",
     hand_shape := "Flat hand to open palms",
     movement := some "Forehead touch to shrug",
     location := some "Forehead to shoulders" }),
  ("EMERGENCY",
   { name := "EMERGENCY", type := ASLSignType.DYNAMIC,
     description := "E hand shaking side to side", hand_shape := "E hand (bent fingers)",
     movement := some "Shake side to side", location := some "Chest height",
     facial_expression := some "Urgent" }),
  ("DANGER",
   { name := "DANGER", type := ASLSignType.TWO_HANDED,
     description := "Fists alternating up across body", hand_shape := "Fists",
     movement := some "Alternating diagonal motion", two_handed := true,
     facial_expression := some "Concerned" }),
  ("SICK",
   { name := "SICK", type := ASLSignType.TWO_HANDED,
     description := "Middle finger to forehead and stomach",
     hand_shape := "Middle finger extended",
     movement := some "Touch forehead and stomach", two_handed := true }),
  ("HURT",
   { name := "HURT", type := ASLSignType.DYNAMIC,
     description := "Index fingers pointing at each other",
     hand_shape := "Index fingers extended",
     movement := some "Jab toward each other", two_handed := true }),
  ("DOCTOR",
   { name := "DOCTOR", type := ASLSignType.DYNAMIC,
     description := "D hand taps wrist", hand_shape := "D hand",
     movement := some "Tap wrist", two_handed := true }),
  ("HUNGRY",
   { name := "HUNGRY", type := ASLSignType.DYNAMIC,
     description := "C hand moves down chest", hand_shape := "C hand",
     movement := some "Down chest", location := some "Upper chest to stomach",
     hand_orientation := some "Palm in" }),
  ("THIRSTY",
   { name := "THIRSTY", type := ASLSignType.DYNAMIC,
     description := "Index finger traces down throat",
     hand_shape := "Index finger extended",
     movement := some "Down throat", location := some "Throat",
     finger_states := some [("index", true)] }),
  ("WATER",
   { name := "WATER", type := ASLSignType.DYNAMIC,
     description := "W hand taps chin", hand_shape := "W hand (three fingers)",
     movement := some "Tap chin twice", location := some "Chin",
     finger_states := some [("index", true), ("middle", true), ("ring", true)] }),
  ("FOOD",
   { name := "FOOD", type := ASLSignType.DYNAMIC,
     description := "Fingers to mouth repeatedly", hand_shape := "Flat O hand",
     movement := some "To mouth repeatedly", location := some "Mouth" }),
  ("BATHROOM",
   { name := "BATHROOM", type := ASLSignType.DYNAMIC,
     description := "T hand shakes", hand_shape := "T hand (thumb between fingers)",
     movement := some "Shake side to side", location := some "Chest height" }),
  ("SLEEP",
   { name := "SLEEP", type := ASLSignType.DYNAMIC,
     description := "Open hand closes over face", hand_shape := "Open to closed hand",
     movement := some "Draw down over face", location := some "Face",
     facial_expression := some "Eyes closed" }),
  ("HAPPY",
   { name := "HAPPY", type := ASLSignType.DYNAMIC,
     description := "Flat hand brushes up chest", hand_shape := "Flat hand",
     movement := some "Brush up repeatedly", location := some "Chest",
     facial_expression := some "Smile" }),
  ("SAD",
   { name := "SAD", type := ASLSignType.DYNAMIC,
     description := "Hands trace tears down face", hand_shape := "Open hands",
     movement := some "Down face", location := some "Face",
     two_handed := true, facial_expression := some "Sad" }),
  ("ANGRY",
   { name := "ANGRY", type := ASLSignType.DYNAMIC,
     description := "Claw hand at face", hand_shape := "Claw hand",
     movement := some "Pull away from face", location := some "Face",
     facial_expression := some "Angry" }),
  ("LOVE",
   { name := "LOVE", type := ASLSignType.TWO_HANDED,
     description := "Cross arms over chest", hand_shape := "Fists",
     movement := some "Hug motion", two_handed := true,
     relative_position := some "Cross chest" }),
  ("SCARED",
   { name := "SCARED", type := ASLSignType.DYNAMIC,
     description := "Hands shake in front of chest", hand_shape := "Open hands",
     movement := some "Shake/tremble", location := some "Chest",
     two_handed := true, facial_expression := some "Fearful" }),
  ("WHAT",
   { name := "WHAT", type := ASLSignType.DYNAMIC,
     description := "Index finger across open palm", hand_shape := "Index on palm",
     movement := some "Brush across", two_handed := true,
     facial_expression := some "Questioning" }),
  ("WHERE",
   { name := "WHERE", type := ASLSignType.DYNAMIC,
     description := "Index finger waves side to side", hand_shape := "Index finger",
     movement := some "Wave side to side", location := some "Shoulder height",
     facial_expression := some "Questioning" }),
  ("WHEN",
   { name := "WHEN", type := ASLSignType.DYNAMIC,
     description := "Index circles around other index", hand_shape := "Index fingers",
     movement := some "Circle and touch", two_handed := true,
     facial_expression := some "Questioning" }),
  ("WHY",
   { name := "WHY", type := ASLSignType.DYNAMIC,
     description := "Touch forehead, bring down to Y hand", hand_shape := "Flat to Y hand",
     movement := some "Forehead down", location := some "Forehead to chest",
     facial_expression := some "Questioning" }),
  ("WHO",
   { name := "WHO", type := ASLSignType.DYNAMIC,
     description := "Index finger circles at mouth", hand_shape := "L hand at chin",
     movement := some "Circle at mouth", location := some "Mouth",
     facial_expression := some "Questioning" }),
  ("MY_NAME",
   { name := "MY_NAME", type := ASLSignType.TWO_HANDED,
     description := "H hands tap together", hand_shape := "H hands",
     movement := some "Tap together", two_handed := true }),
  ("NICE_TO_MEET_YOU",
   { name := "NICE_TO_MEET_YOU", type := ASLSignType.DYNAMIC,
     description := "Index fingers come together", hand_shape := "Index fingers",
     movement := some "Come together", two_handed := true }),
  ("I_UNDERSTAND",
   { name := "I_UNDERSTAND", type := ASLSignType.DYNAMIC,
     description := "Fist flicks up at forehead", hand_shape := "Fist to flick",
     movement := some "Flick index up", location := some "Forehead" }),
  ("I_DONT_UNDERSTAND",
   { name := "I_DONT_UNDERSTAND", type := ASLSignType.DYNAMIC,
     description := "Index flicks at forehead with head shake", hand_shape := "Index finger",
     movement := some "Flick with shake", location := some "Forehead",
     facial_expression := some "Confused" })
]

/-- The finger-extension dict built by
`ASLRecognizer._get_finger_states` (keys thumb/index/middle/ring/pinky/all;
the dict is empty when fewer than 21 landmarks are given, modelled as
`none` one level up). -/
structure FingerStates where
  thumb : Bool
  index : Bool
  middle : Bool
  ring : Bool
  pinky : Bool
  all : Bool
  deriving Repr, DecidableEq

/-- Landmark list indexing; all uses in the source are guarded by a
`len(landmarks) >= 21` check, so the default is never read. -/
def lm (landmarks : List Landmark) (i : ℕ) : Landmark :=
  landmarks.getD i ⟨0, 0, 0⟩

/-- `asl_dictionary.py`, `ASLRecognizer._get_finger_states`; tip/PIP
landmark indices and the 0.02 epsilon as in the source; thumb uses the
x-axis.  Fewer than 21 landmarks yield the empty dict (`none`). -/
def get_finger_states (landmarks : List Landmark) : Option FingerStates :=
  if 21 ≤ landmarks.length then
    let thumb := (lm landmarks 4).x > (lm landmarks 3).x + 1/50
    let index := (lm landmarks 8).y < (lm landmarks 6).y - 1/50
    let middle := (lm landmarks 12).y < (lm landmarks 10).y - 1/50
    let ring := (lm landmarks 16).y < (lm landmarks 14).y - 1/50
    let pinky := (lm landmarks 20).y < (lm landmarks 18).y - 1/50
    some ⟨thumb, index, middle, ring, pinky,
          thumb && index && middle && ring && pinky⟩
  else none

/-- Key lookup in the finger-states dict (`"x" in states` / `states[x]`). -/
def fingerLookup (fs : Option FingerStates) (key : String) : Option Bool :=
  match fs with
  | none => none
  | some s =>
    if key = "thumb" then some s.thumb
    else if key = "index" then some s.index
    else if key = "middle" then some s.middle
    else if key = "ring" then some s.ring
    else if key = "pinky" then some s.pinky
    else if key = "all" then some s.all
    else none

/-- `asl_dictionary.py`, `ASLRecognizer._get_hand_shape`.  With fewer than
21 landmarks the states dict is empty, so `states.get("all", False)` is
false and `any([])` is false, and the function returns "fist". -/
def get_hand_shape (landmarks : List Landmark) : String :=
  match get_finger_states landmarks with
  | none => "fist"
  | some s =>
    if s.all then "open_hand"
    else if ¬(s.thumb ∨ s.index ∨ s.middle ∨ s.ring ∨ s.pinky ∨ s.all) then "fist"
    else if s.index ∧ ¬s.middle then "pointing"
    else if s.index ∧ s.middle ∧ ¬s.ring then "peace"
    else if s.thumb ∧ s.index ∧ s.pinky then "ily"
    else "other"

/-- `asl_dictionary.py`, `ASLRecognizer._get_hand_orientation`. -/
def get_hand_orientation (landmarks : List Landmark) : String :=
  if landmarks.length < 21 then "unknown"
  else
    let wrist := lm landmarks 0
    let middle_base := lm landmarks 9
    let dx := middle_base.x - wrist.x
    let dy := middle_base.y - wrist.y
    let dz := middle_base.z - wrist.z
    if |dz| > 3/10 then (if dz > 0 then "palm_forward" else "palm_back")
    else if |dy| > |dx| then (if dy < 0 then "palm_up" else "palm_down")
    else "palm_side"

/-- `asl_dictionary.py`, `ASLRecognizer._get_relative_position`. -/
def get_relative_position (landmarks : List Landmark) : String :=
  if landmarks.length = 0 then "unknown"
  else
    let avg_x := (landmarks.map (·.x)).sum / landmarks.length
    let avg_y := (landmarks.map (·.y)).sum / landmarks.length
    let row := if avg_y < 3/10 then "high" else if avg_y > 7/10 then "low" else "middle"
    let col := if avg_x < 3/10 then "_left" else if avg_x > 7/10 then "_right" else "_center"
    row ++ col

/-- The features dict built by `ASLRecognizer._extract_hand_features`. -/
structure HandFeaturesASL where
  finger_states : Option FingerStates
  hand_orientation : String
  hand_shape : String
  relative_position : String
  deriving Repr, DecidableEq

/-- `asl_dictionary.py`, `ASLRecognizer._extract_hand_features`. -/
def extract_hand_features (landmarks : List Landmark) : HandFeaturesASL :=
  ⟨get_finger_states landmarks, get_hand_orientation landmarks,
   get_hand_shape landmarks, get_relative_position landmarks⟩

/-- Python's substring test `needle in haystack`. -/
def pySubstr (needle haystack : String) : Bool :=
  decide (needle.data <:+: haystack.data)

/-- `asl_dictionary.py`, `ASLRecognizer._match_static_sign`, finger-state
block: the matched-finger ratio, contributing one factor when the
definition carries a non-empty finger-state dict. -/
def msFingerPart (features : HandFeaturesASL) (sign_def : SignDefinition) : ℚ × ℕ :=
  match sign_def.finger_states with
  | some fsd =>
    if fsd.length ≠ 0 then
      ((fsd.countP fun p =>
          fingerLookup features.finger_states p.1 == some p.2 : ℚ)
        / (fsd.length : ℚ), 1)
    else (0, 0)
  | none => (0, 0)

/-- `_match_static_sign`, hand-orientation block: 1.0 on an exact match,
one factor when the definition carries an orientation. -/
def msOrientPart (features : HandFeaturesASL) (sign_def : SignDefinition) : ℚ × ℕ :=
  if sign_def.hand_orientation.getD "" ≠ "" then
    (if features.hand_orientation = sign_def.hand_orientation.getD ""
     then (1, 1) else (0, 1))
  else (0, 0)

/-- `_match_static_sign`, relative-position block: 0.8 on a substring
match, one factor when the definition carries a position. -/
def msPosPart (features : HandFeaturesASL) (sign_def : SignDefinition) : ℚ × ℕ :=
  if sign_def.relative_position.getD "" ≠ "" then
    (if pySubstr (sign_def.relative_position.getD "") features.relative_position
     then (8/10, 1) else (0, 1))
  else (0, 0)

/-- `asl_dictionary.py`, `ASLRecognizer._match_static_sign`: per-field
match ratio over the factors present in the definition (finger states,
hand orientation, relative position), divided by the factor count. -/
def match_static_sign (features : HandFeaturesASL) (sign_def : SignDefinition) : ℚ :=
  let confidence := (msFingerPart features sign_def).1 +
    (msOrientPart features sign_def).1 + (msPosPart features sign_def).1
  let factors := (msFingerPart features sign_def).2 +
    (msOrientPart features sign_def).2 + (msPosPart features sign_def).2
  if 0 < factors then confidence / (factors : ℚ) else 0

/-- The motion-features dict built by
`ASLRecognizer._extract_motion_features` (empty for <2 frames, modelled as
`none` at the use sites). -/
structure MotionFeaturesASL where
  movement_type : String
  movement_direction : String
  movement_speed : ℚ
  hand_shape_changes : List String
  deriving Repr, DecidableEq

/-- `asl_dictionary.py`, `ASLRecognizer._match_dynamic_sign`.  The only
factor compares the definition's movement string with the extracted
movement type/speed. -/
def match_dynamic_sign (features : Option MotionFeaturesASL)
    (sign_def : SignDefinition) : ℚ :=
  match features with
  | none => 0
  | some f =>
    if sign_def.movement.getD "" ≠ "" then
      (if pySubstr "circular" ((sign_def.movement.getD "").toLower) ∧
          pySubstr "circular" f.movement_type then (1 : ℚ)
       else if pySubstr "wave" ((sign_def.movement.getD "").toLower) ∧
          f.movement_speed > 1/10 then 8/10
       else if pySubstr "tap" ((sign_def.movement.getD "").toLower) ∧
          pySubstr "small_movement" f.movement_type then 7/10
       else 0) / 1
    else 0

/-- One step of the best-match loops in
`ASLRecognizer.recognize_static_sign` / `recognize_dynamic_sign` (and the
same `if confidence > best_confidence` shape in
`AdvancedASLRecognizer._recognize_static_gesture`): consider the entry if
its type passes the filter, replacing the running best only on a strictly
higher confidence. -/
def bestStep (score : SignDefinition → ℚ) (isType : SignDefinition → Bool)
    (best : String × ℚ) (entry : String × SignDefinition) : String × ℚ :=
  if isType entry.2 then
    (if score entry.2 > best.2 then (entry.1, score entry.2) else best)
  else best

/-- The full best-match loop over the catalog in iteration order. -/
def bestFold (score : SignDefinition → ℚ) (isType : SignDefinition → Bool)
    (catalog : List (String × SignDefinition)) (init : String × ℚ) : String × ℚ :=
  catalog.foldl (bestStep score isType) init

/-- `asl_dictionary.py`, `ASLRecognizer.recognize_static_sign`: reject <21
landmarks, otherwise scan the catalog's STATIC entries for the best
`_match_static_sign` score, starting from ("UNKNOWN", 0.0). -/
def recognize_static_sign (hand_landmarks : List Landmark) : String × ℚ :=
  if hand_landmarks.length = 0 ∨ hand_landmarks.length < 21 then ("UNKNOWN", 0)
  else
    bestFold (match_static_sign (extract_hand_features hand_landmarks))
      (fun sd => sd.type = ASLSignType.STATIC) ASL_DICTIONARY ("UNKNOWN", 0)

/-- `asl_dictionary.py`, `ASLRecognizer._classify_movement`: average
first-to-last frame displacement over the common landmark count.  `sq`
models Python's `** 0.5`. -/
def classify_movement (sq : ℚ → ℚ) (sequence : List (List Landmark)) : String :=
  if sequence.length < 2 then "static"
  else
    let first_frame := sequence.headD []
    let last_frame := sequence.getLastD []
    if first_frame.length = 0 ∨ last_frame.length = 0 then "unknown"
    else
      let n := min first_frame.length last_frame.length
      let total := ((List.range n).map fun i =>
        let dx := (lm last_frame i).x - (lm first_frame i).x
        let dy := (lm last_frame i).y - (lm first_frame i).y
        sq (dx ^ 2 + dy ^ 2)).sum
      let avg := total / (n : ℚ)
      if avg < 1/20 then "static"
      else if avg < 3/20 then "small_movement"
      else "large_movement"

/-- `asl_dictionary.py`, `ASLRecognizer._get_movement_direction`: net
displacement summed over consecutive frame pairs (previous, current). -/
def get_movement_direction (sequence : List (List Landmark)) : String :=
  if sequence.length < 2 then "none"
  else
    let pairs := sequence.zip sequence.tail
    let tot := pairs.foldl (fun (acc : ℚ × ℚ) pq =>
      if pq.2.length ≠ 0 ∧ pq.1.length ≠ 0 then
        let m := min pq.2.length pq.1.length
        (acc.1 + ((List.range m).map fun j => (lm pq.2 j).x - (lm pq.1 j).x).sum,
         acc.2 + ((List.range m).map fun j => (lm pq.2 j).y - (lm pq.1 j).y).sum)
      else acc) (0, 0)
    if |tot.1| > |tot.2| then (if tot.1 > 0 then "horizontal" else "horizontal_left")
    else (if tot.2 > 0 then "vertical" else "vertical_up")

/-- `asl_dictionary.py`, `ASLRecognizer._calculate_movement_speed`. -/
def calculate_movement_speed (sq : ℚ → ℚ) (sequence : List (List Landmark)) : ℚ :=
  if sequence.length < 2 then 0
  else
    let pairs := sequence.zip sequence.tail
    let ts := pairs.foldl (fun (acc : ℚ × ℕ) pq =>
      if pq.2.length ≠ 0 ∧ pq.1.length ≠ 0 then
        let m := min pq.2.length pq.1.length
        let frame_speed := ((List.range m).map fun j =>
          let dx := (lm pq.2 j).x - (lm pq.1 j).x
          let dy := (lm pq.2 j).y - (lm pq.1 j).y
          sq (dx ^ 2 + dy ^ 2)).sum
        (acc.1 + frame_speed, acc.2 + 1)
      else acc) (0, 0)
    if 0 < ts.2 then ts.1 / (ts.2 : ℚ) else 0

/-- `asl_dictionary.py`, `ASLRecognizer._detect_shape_changes`. -/
def detect_shape_changes (sequence : List (List Landmark)) : List String :=
  sequence.foldl (fun shapes frame =>
    if frame.length ≠ 0 ∧ 21 ≤ frame.length then
      let shape := get_hand_shape frame
      if shapes.length = 0 ∨ shapes.getLast? ≠ some shape then shapes ++ [shape]
      else shapes
    else shapes) []

/-- `asl_dictionary.py`, `ASLRecognizer._extract_motion_features`
(empty dict for fewer than 2 frames). -/
def extract_motion_features (sq : ℚ → ℚ)
    (sequence : List (List Landmark)) : Option MotionFeaturesASL :=
  if sequence.length < 2 then none
  else some ⟨classify_movement sq sequence, get_movement_direction sequence,
             calculate_movement_speed sq sequence, detect_shape_changes sequence⟩

/-- `asl_dictionary.py`, `ASLRecognizer.recognize_dynamic_sign`: reject <5
frames, otherwise scan the catalog's DYNAMIC and TWO_HANDED entries. -/
def recognize_dynamic_sign (sq : ℚ → ℚ)
    (hand_sequence : List (List Landmark)) : String × ℚ :=
  if hand_sequence.length = 0 ∨ hand_sequence.length < 5 then ("UNKNOWN", 0)
  else
    bestFold (match_dynamic_sign (extract_motion_features sq hand_sequence))
      (fun sd => sd.type = ASLSignType.DYNAMIC ∨ sd.type = ASLSignType.TWO_HANDED)
      ASL_DICTIONARY ("UNKNOWN", 0)

/-- The feature dict built by `api.py`, `analyze_hand_gesture` (the
`"valid": False` result is modelled as `none` one level up). -/
structure GestureFeatures where
  fingers_up : ℕ
  thumb_up : Bool
  thumb_down : Bool
  index_up : Bool
  middle_up : Bool
  ring_up : Bool
  pinky_up : Bool
  is_fist : Bool
  is_open : Bool
  is_pointing : Bool
  is_peace : Bool
  is_ok : Bool
  hand_height : ℚ
  hand_center_x : ℚ
  hand_center_y : ℚ
  openness : ℚ
  deriving Repr, DecidableEq

/-- `api.py`, `analyze_hand_gesture`: finger flags from tip/PIP `y`
comparisons with a 0.02 epsilon, thumb on its own tests, centre/height and
openness metrics, and the derived shape flags.  `sq` models `** 0.5` in
the openness distances. -/
def analyze_hand_gesture (sq : ℚ → ℚ) (landmarks : List Landmark) :
    Option GestureFeatures :=
  if landmarks.length < 21 then none
  else
    let wrist := lm landmarks 0
    let thumb_tip := lm landmarks 4
    let thumb_ip := lm landmarks 3
    let index_tip := lm landmarks 8
    let index_pip := lm landmarks 6
    let middle_tip := lm landmarks 12
    let middle_pip := lm landmarks 10
    let ring_tip := lm landmarks 16
    let ring_pip := lm landmarks 14
    let pinky_tip := lm landmarks 20
    let pinky_pip := lm landmarks 18
    let thumb_up := thumb_tip.y < thumb_ip.y - 1/50
    let thumb_down := thumb_tip.y > wrist.y + 1/20
    let index_extended := index_tip.y < index_pip.y - 1/50
    let middle_extended := middle_tip.y < middle_pip.y - 1/50
    let ring_extended := ring_tip.y < ring_pip.y - 1/50
    let pinky_extended := pinky_tip.y < pinky_pip.y - 1/50
    let fingers_up : ℕ :=
      (if index_extended then 1 else 0) + (if middle_extended then 1 else 0) +
      (if ring_extended then 1 else 0) + (if pinky_extended then 1 else 0)
    let hand_center_x := (landmarks.map (·.x)).sum / landmarks.length
    let hand_center_y := (landmarks.map (·.y)).sum / landmarks.length
    let hand_height := hand_center_y
    let palm_center := lm landmarks 9
    let openness :=
      (sq ((index_tip.x - palm_center.x) ^ 2 + (index_tip.y - palm_center.y) ^ 2) +
       sq ((middle_tip.x - palm_center.x) ^ 2 + (middle_tip.y - palm_center.y) ^ 2) +
       sq ((ring_tip.x - palm_center.x) ^ 2 + (ring_tip.y - palm_center.y) ^ 2) +
       sq ((pinky_tip.x - palm_center.x) ^ 2 + (pinky_tip.y - palm_center.y) ^ 2)) / 4
    some
      { fingers_up := fingers_up
        thumb_up := thumb_up
        thumb_down := thumb_down
        index_up := index_extended
        middle_up := middle_extended
        ring_up := ring_extended
        pinky_up := pinky_extended
        is_fist := fingers_up = 0 ∧ ¬thumb_up
        is_open := fingers_up = 4 ∧ openness > 3/20
        is_pointing := index_extended ∧ fingers_up = 1
        is_peace := index_extended ∧ middle_extended ∧ fingers_up = 2
        is_ok := thumb_up ∧ index_extended ∧ middle_extended ∧ fingers_up = 3
        hand_height := hand_height
        hand_center_x := hand_center_x
        hand_center_y := hand_center_y
        openness := openness }

/-- `api.py`, `process_sign_language`, single-hand section. -/
def psl_one_hand (hand : GestureFeatures) : String × ℚ :=
  if hand.is_open ∧ hand.hand_height < 1/2 then ("HELLO", 92/100)
  else if hand.thumb_up ∧ hand.fingers_up = 0 then ("GOOD", 95/100)
  else if hand.is_pointing then ("YOU", 88/100)
  else if hand.is_peace then ("PEACE", 90/100)
  else if hand.is_ok then ("OK", 87/100)
  else if hand.is_fist then
    (if hand.hand_height < 2/5 then ("STOP", 85/100) else ("NO", 80/100))
  else if hand.is_open ∧ hand.hand_height > 3/5 then ("HELP", 75/100)
  else if hand.fingers_up = 1 then ("ONE", 93/100)
  else if hand.fingers_up = 2 then ("TWO", 93/100)
  else if hand.fingers_up = 3 then ("THREE", 93/100)
  else if hand.fingers_up = 4 then ("FOUR", 93/100)
  else if hand.fingers_up = 5 ∨ (hand.fingers_up = 4 ∧ hand.thumb_up) then
    ("FIVE", 93/100)
  else ("HELLO", 55/100)

/-- `api.py`, `process_sign_language`, two-hand section. -/
def psl_two_hands (left_hand right_hand : GestureFeatures) : String × ℚ :=
  if left_hand.hand_height < 1/4 ∧ right_hand.hand_height < 1/4 then
    ("HELLO", 95/100)
  else if |left_hand.hand_center_x - right_hand.hand_center_x| < 12/100 then
    (if left_hand.hand_height < 3/5 ∧ right_hand.hand_height < 3/5 then
      ("THANK_YOU", 96/100)
    else ("PLEASE", 90/100))
  else if left_hand.thumb_up ∧ right_hand.thumb_up then ("LOVE", 98/100)
  else if left_hand.index_up ∧ left_hand.middle_up ∧
      right_hand.index_up ∧ right_hand.middle_up then ("PEACE", 94/100)
  else if |left_hand.hand_center_x - right_hand.hand_center_x| > 1/2 then
    ("GOOD", 85/100)
  else if |left_hand.hand_center_x - right_hand.hand_center_x| < 1/5 ∧
      left_hand.hand_height > 3/10 ∧ right_hand.hand_height > 3/10 then
    ("GOOD", 83/100)
  else ("THANK_YOU", 3/5)

/-- `api.py`, `process_sign_language`: the legacy rule-based fallback over
the per-hand features: no valid hand gives ("Unknown", 0.0); one hand uses
the single-hand rules (`left_hand` is the first valid feature set,
`right_hand` the second if present, else the first again); more than two
hands fall through to ("Unknown", 0.45). -/
def process_sign_language (sq : ℚ → ℚ) (pose_data : List (List Landmark)) :
    String × ℚ :=
  if pose_data.length = 0 then ("Unknown", 0)
  else
    match pose_data.filterMap (analyze_hand_gesture sq) with
    | [] => ("Unknown", 0)
    | hand :: rest =>
      if pose_data.length = 1 then psl_one_hand hand
      else if pose_data.length = 2 then psl_two_hands hand (rest.headD hand)
      else ("Unknown", 45/100)

/-- `api.py`, `websocket_sign_endpoint`, lines 436-452: the arbitration
that runs after the dictionary recogniser.  If the dictionary confidence
is below 0.5 and the inference service is loaded, the ML result replaces
it when strictly higher; if the surviving confidence is below 0.3, the
rule-based result replaces it when strictly higher. -/
def arbitrate (dict_result : String × ℚ) (ml_loaded : Bool)
    (ml_result : String × ℚ) (rule_result : String × ℚ) : String × ℚ :=
  let s1 :=
    if dict_result.2 < 1/2 ∧ ml_loaded then
      (if ml_result.2 > dict_result.2 then ml_result else dict_result)
    else dict_result
  if s1.2 < 3/10 then
    (if rule_result.2 > s1.2 then rule_result else s1)
  else s1

/-- Modelled from the spec (§4.6, sources of C3): the arbitration order in
the spec's own words — try the Sign Matcher, then (below 0.5) the Sequence
Model Adapter keeping the higher-confidence pair, then (below 0.3) the
legacy rule fallback keeping the higher-confidence pair.  An unloaded
adapter contributes the ("Unknown", 0.0) fallback pair (§4.5). -/
def arbitrateSpec (matcher : String × ℚ) (adapter : String × ℚ)
    (fallback : String × ℚ) : String × ℚ :=
  let s1 := if matcher.2 < 1/2 then
    (if adapter.2 > matcher.2 then adapter else matcher) else matcher
  if s1.2 < 3/10 then
    (if fallback.2 > s1.2 then fallback else s1)
  else s1

/-- Events the endpoint can send back over the transport. -/
inductive Event where
  | prediction (sign : String) (confidence : ℚ)
  | legacy_prediction (word : String) (confidence : ℚ)
  | low_confidence (confidence : ℚ)
  | no_hands
  | error (msg : String)
  deriving Repr, DecidableEq

/-- `api.py`, lines 414-416: append the frame to `gesture_history`,
evicting the oldest when more than 30 are held. -/
def gestureHistoryAppend (history : List (List (List Landmark)))
    (pose_data : List (List Landmark)) : List (List (List Landmark)) :=
  let h := history ++ [pose_data]
  if 30 < h.length then h.tail else h

/-- `api.py`, `websocket_sign_endpoint`, "landmarks"/"holistic" branch
(lines 401-460): buffer the frame, run the dictionary recogniser
(static for fewer than 5 buffered frames), arbitrate with the ML model and
the rule-based fallback, and send the prediction event unconditionally.
With 5 or more buffered frames the code calls `recognize_dynamic_sign`
on `gesture_history`, whose elements are frames (lists of hands), while
that function indexes them as landmark dicts (`first_frame[i]["x"]`);
with the endpoint's frame format this raises `TypeError`, which the
endpoint's outer `except Exception` turns into an error event.  Returns
the updated history and the events sent. -/
def processLandmarksMessage (sq : ℚ → ℚ) (ml_loaded : Bool)
    (ml_predict : List (List Landmark) → String × ℚ)
    (history : List (List (List Landmark))) (pose_data : List (List Landmark)) :
    List (List (List Landmark)) × List Event :=
  if pose_data.length = 0 then (history, [])
  else
    let history' := gestureHistoryAppend history pose_data
    if 5 ≤ history'.length then
      (history', [Event.error "Error processing hand coordinates"])
    else
      let dict_result := recognize_static_sign (pose_data.headD [])
      let final := arbitrate dict_result ml_loaded (ml_predict pose_data)
        (process_sign_language sq pose_data)
      (history', [Event.prediction final.1 final.2])

/-- `api.py`, legacy-format branch (lines 484-500): run the rule-based
recogniser and send a prediction only when the confidence exceeds 0.5 and
the word is not "Unknown". -/
def processLegacyLandmarks (sq : ℚ → ℚ) (landmarks : List Landmark) : List Event :=
  let pose_data := if landmarks.length ≠ 0 then [landmarks] else []
  let r := process_sign_language sq pose_data
  if r.2 > 1/2 ∧ r.1 ≠ "Unknown" then [Event.legacy_prediction r.1 r.2] else []

/-- `services/inference.py`, `InferenceService.predict`.  Python's
`raise ValueError` is modelled as `Except.error`; the opaque Keras model
call is the `model_predict` argument, whose `Except.error` branch stands
for an exception during inference, caught by the `try`/`except` and
converted to ("Unknown", 0.0). -/
def inference_predict (is_loaded : Bool) (model_present : Bool)
    (model_predict : List (List Landmark) → Except String (String × ℚ))
    (landmarks : List (List RawLandmark)) : Except String (String × ℚ) :=
  if ¬is_loaded ∨ ¬model_present then
    Except.error "Model not loaded. Call load_model() first."
  else
    let normalized_hands := normalize_hands landmarks
    if normalized_hands.length = 0 then Except.ok ("Unknown", 0)
    else
      match model_predict normalized_hands with
      | Except.ok r => Except.ok r
      | Except.error _ => Except.ok ("Unknown", 0)

/-- `services/preprocess.py`, `flatten_landmarks`: concatenate x,y,z of
each landmark, pad with zeros to 63 features, truncate to 63. -/
def flatten_landmarks (landmarks : List Landmark) : List ℚ :=
  let features := landmarks.foldr (fun l acc => l.x :: l.y :: l.z :: acc) []
  let padded := features ++ List.replicate (63 - features.length) 0
  padded.take 63

/-- `services/preprocess.py`, `flatten_hands`: a 126-slot zero vector in
which each of the (at most 2) present hands' normalised, flattened 63
features is written at its offset. -/
def flatten_hands (hands : List (List RawLandmark)) : List ℚ :=
  let block := fun (i : ℕ) =>
    if i < min 2 hands.length then
      flatten_landmarks (normalize_landmarks (hands.getD i []))
    else List.replicate 63 (0 : ℚ)
  block 0 ++ block 1

/-- `model/lstm_model.py` (and identically `model.py`),
`SignLanguageModel.prepare_sequence`: build one feature row from up to two
hands (63 slots each, zero-filled when a hand has fewer than 21 points or
when only one hand is present), truncate/pad the row to `num_features`,
and tile it `sequence_length` times. -/
def prepare_sequence (sequence_length num_features : ℕ)
    (landmarks : List (List RawLandmark)) : List (List ℚ) :=
  if landmarks.length = 0 then
    List.replicate sequence_length (List.replicate num_features 0)
  else
    let hand_feats := (landmarks.take 2).map fun hand =>
      if 21 ≤ hand.length then
        (hand.take 21).foldr
          (fun l acc => l.x?.getD 0 :: l.y?.getD 0 :: l.z?.getD 0 :: acc) []
      else List.replicate 63 (0 : ℚ)
    let features := hand_feats.flatten ++
      (if landmarks.length = 1 then List.replicate 63 (0 : ℚ) else [])
    let truncated := features.take num_features
    let row := truncated ++ List.replicate (num_features - truncated.length) 0
    List.replicate sequence_length row

/-- `advanced_recognition.py`, `AdvancedASLRecognizer._get_finger_states`:
per-finger extension as floats (1.0 extended / 0.0 not), comparing each
tip's y against its base landmark (indices 4/8/12/16/20 vs 2/5/9/13/17). -/
def get_finger_states_adv (landmarks : List Landmark) : List ℚ :=
  let finger_tips := [4, 8, 12, 16, 20]
  let finger_bases := [2, 5, 9, 13, 17]
  (finger_tips.zip finger_bases).map fun tb =>
    if tb.1 < landmarks.length ∧ tb.2 < landmarks.length then
      (if (lm landmarks tb.1).y < (lm landmarks tb.2).y then 1 else 0)
    else 0

/-- `advanced_recognition.py`, `AdvancedASLRecognizer._get_hand_shape`:
classification purely by the count of extended fingers. -/
def get_hand_shape_adv (landmarks : List Landmark) : String :=
  let finger_states := get_finger_states_adv landmarks
  let open_fingers := finger_states.countP fun f => f > 1/2
  if open_fingers = 0 then "fist"
  else if open_fingers = 5 then "open"
  else if open_fingers = 1 then "pointing"
  else if open_fingers = 2 then "peace"
  else "partial"

/-- The `RecognizedGesture` payload as far as the temporal filter reads
it (`advanced_recognition.py`). -/
structure RecognizedGesture where
  sign : String
  confidence : ℚ
  deriving Repr, DecidableEq

/-- The temporal-filter state of `AdvancedASLRecognizer`
(`last_recognized`, `last_recognition_time`). -/
structure TemporalFilterState where
  last_recognized : Option RecognizedGesture
  last_recognition_time : ℚ
  deriving Repr, DecidableEq

/-- The recogniser's initial state (`__init__`): no last recognition,
time 0. -/
def initTemporalState : TemporalFilterState := ⟨none, 0⟩

/-- `AdvancedASLRecognizer.recognition_cooldown` (1 second). -/
def recognition_cooldown : ℚ := 1

/-- `advanced_recognition.py`,
`AdvancedASLRecognizer._apply_temporal_filter`: suppress a gesture whose
sign equals the last recognised sign within the cooldown window (leaving
the state unchanged); otherwise record it and pass it through. -/
def apply_temporal_filter (st : TemporalFilterState)
    (gesture : RecognizedGesture) (current_time : ℚ) :
    TemporalFilterState × Option RecognizedGesture :=
  match st.last_recognized with
  | some lastg =>
    if gesture.sign = lastg.sign ∧
        current_time - st.last_recognition_time < recognition_cooldown then
      (st, none)
    else (⟨some gesture, current_time⟩, some gesture)
  | none => (⟨some gesture, current_time⟩, some gesture)

/-- `websocket_handler.py`,
`SignLanguageWebSocketHandler.process_landmarks` (prediction section):
predict only when at least `min_frames_for_prediction` (15) frames are
buffered and `prediction_cooldown` (0.5 s) has passed; send the
prediction event only when the confidence reaches the handler's
`confidence_threshold` (0.7), otherwise a low-confidence event. -/
def handlerProcessPrediction (buffer_len : ℕ)
    (current_time last_pred_time : ℚ) (prediction : String × ℚ) : List Event :=
  if 15 ≤ buffer_len ∧ current_time - last_pred_time ≥ 1/2 then
    (if prediction.2 ≥ 7/10 then [Event.prediction prediction.1 prediction.2]
     else [Event.low_confidence prediction.2])
  else []

/-- `confidence_system.py`: `np.argmax` — index of the first occurrence of
the maximum (0 for an empty list). -/
def argmaxIdx (l : List ℚ) : ℕ :=
  (l.enum.foldl (fun best p => if p.2 > best.2 then p else best)
    (0, l.headD 0)).1

/-- `confidence_system.py`, `ConfidenceSystem.context_modifiers`
(`.get(context, 1.0)`). -/
def context_modifier (context : String) : ℚ :=
  if context = "single_hand" then 1
  else if context = "two_hands" then 95/100
  else if context = "moving_sign" then 9/10
  else if context = "static_sign" then 105/100
  else 1

/-- `confidence_system.py`,
`ConfidenceSystem._calculate_landmark_stability`.  The argument models the
Python dict: `none` for a falsy value, `some none` for a dict without
`multiHandLandmarks`, and `some (some ns)` for one whose hand list has the
given landmark counts. -/
def landmark_stability (landmarks : Option (Option (List ℕ))) : ℚ :=
  match landmarks with
  | none => 1
  | some none => 1
  | some (some hands) =>
    if hands.length = 0 then 1/2
    else if hands.any (fun n => n < 21) then 7/10
    else 1

/-- `confidence_system.py`, `ConfidenceSystem._apply_temporal_smoothing`:
boost by 1.1 (capped at 1) when at least 2 of the last 3 predictions had
the same index, penalise by 0.9 when none did. -/
def apply_temporal_smoothing (history : List ℕ) (current_idx : ℕ)
    (current_confidence : ℚ) : ℚ :=
  if history.length = 0 then current_confidence
  else if ((history.drop (history.length - 3)).count current_idx : ℚ) /
      ((history.drop (history.length - 3)).length : ℚ) ≥ 67/100 then
    min (current_confidence * (11/10)) 1
  else if ((history.drop (history.length - 3)).count current_idx : ℚ) /
      ((history.drop (history.length - 3)).length : ℚ) ≤ 33/100 then
    current_confidence * (9/10)
  else current_confidence

/-- `confidence_system.py`, `ConfidenceSystem._idx_to_sign`. -/
def idx_to_sign (idx : ℕ) : String :=
  if idx = 0 then "hello" else if idx = 1 then "thank_you"
  else if idx = 2 then "please" else if idx = 3 then "yes"
  else if idx = 4 then "no" else if idx = 5 then "help"
  else if idx = 6 then "stop" else if idx = 7 then "wait"
  else if idx = 8 then "sorry" else if idx = 9 then "goodbye"
  else "sign_" ++ toString idx

/-- `confidence_system.py`, `ConfidenceSystem.calculate_confidence`.  The
entropy of the prediction vector is computed with `np.log` over floats in
the source; its normalised value is taken here as the input
`normalized_entropy` and fed through the same `1 - 0.3 * entropy` penalty.
All other arithmetic follows the source exactly: base confidence at the
argmax, context modifier, entropy penalty, optional landmark stability,
temporal smoothing over the last 3 history entries, and a final
calibration multiply capped at 1. -/
def calculate_confidence (predictions : List ℚ) (normalized_entropy : ℚ)
    (landmarks : Option (Option (List ℕ))) (context : String)
    (history : List ℕ) (calibration_factor : ℚ) : String × ℚ :=
  let max_prob_idx := argmaxIdx predictions
  let base_confidence := predictions.getD max_prob_idx 0
  let a1 := base_confidence * context_modifier context
  let entropy_penalty := 1 - normalized_entropy * (3/10)
  let a2 := a1 * entropy_penalty
  let a3 := match landmarks with
    | none => a2
    | some lmk => a2 * landmark_stability (some lmk)
  let a4 := if history.length ≠ 0 then
      apply_temporal_smoothing history max_prob_idx a3
    else a3
  let final_confidence := min (a4 * calibration_factor) 1
  (idx_to_sign max_prob_idx, final_confidence)

/-- If no catalog entry passes the type filter, the best-match loop never
leaves its initial value. -/
theorem bestFold_no_match (score : SignDefinition → ℚ)
    (isType : SignDefinition → Bool)
    (catalog : List (String × SignDefinition)) (init : String × ℚ)
    (h : ∀ e ∈ catalog, isType e.2 = false) :
    bestFold score isType catalog init = init := by
  induction catalog generalizing init with
  | nil => rfl
  | cons e rest ih =>
    have he : isType e.2 = false := h e (List.mem_cons_self e rest)
    have hrest : ∀ x ∈ rest, isType x.2 = false :=
      fun x hx => h x (List.mem_cons_of_mem e hx)
    simp only [bestFold, List.foldl_cons] at *
    rw [show bestStep score isType init e = init by simp [bestStep, he]]
    exact ih init hrest

/-- C5.  Every entry of the built-in catalog has type DYNAMIC or
TWO_HANDED (none is STATIC), so `recognize_static_sign` returns
("UNKNOWN", 0.0) on every input; consequently, in the endpoint's static
branch (fewer than 5 buffered frames) the dictionary stage contributes
nothing and the emitted prediction is decided entirely by the ML/rule
arbitration against a ("UNKNOWN", 0) dictionary result. -/
theorem recognize_static_sign_always_unknown :
    (∀ e ∈ ASL_DICTIONARY,
        e.2.type = ASLSignType.DYNAMIC ∨ e.2.type = ASLSignType.TWO_HANDED) ∧
    (∀ hand_landmarks : List Landmark,
        recognize_static_sign hand_landmarks = ("UNKNOWN", 0)) ∧
    (∀ (sq : ℚ → ℚ) (ml_loaded : Bool) (ml_predict : List (List Landmark) → String × ℚ)
        (history : List (List (List Landmark))) (pose_data : List (List Landmark)),
      pose_data.length ≠ 0 →
      (gestureHistoryAppend history pose_data).length < 5 →
      (processLandmarksMessage sq ml_loaded ml_predict history pose_data).2 =
        [Event.prediction
          (arbitrate ("UNKNOWN", 0) ml_loaded (ml_predict pose_data)
            (process_sign_language sq pose_data)).1
          (arbitrate ("UNKNOWN", 0) ml_loaded (ml_predict pose_data)
            (process_sign_language sq pose_data)).2]) := by
  have htypes : ∀ e ∈ ASL_DICTIONARY,
      e.2.type = ASLSignType.DYNAMIC ∨ e.2.type = ASLSignType.TWO_HANDED := by
    decide
  have hmain : ∀ hand_landmarks : List Landmark,
      recognize_static_sign hand_landmarks = ("UNKNOWN", 0) := by
    intro hand
    by_cases h : hand.length = 0 ∨ hand.length < 21
    · unfold recognize_static_sign
      rw [if_pos h]
    · unfold recognize_static_sign
      rw [if_neg h]
      refine bestFold_no_match _ _ _ _ ?_
      intro e he
      rcases htypes e he with h1 | h1 <;> simp [h1]
  refine ⟨htypes, hmain, ?_⟩
  intro sq ml_loaded ml_predict history pose_data hne hlen
  simp only [processLandmarksMessage, if_neg hne, if_neg (by omega : ¬ 5 ≤ (gestureHistoryAppend history pose_data).length)]
  rw [hmain (pose_data.headD [])]

/-- Witness for C5's conditional conjunct at a concrete one-frame input. -/
theorem recognize_static_sign_always_unknown_witness :
    (processLandmarksMessage (fun _ => 0) false (fun _ => ("GOOD", 1)) []
        [[⟨0, 0, 0⟩]]).2 =
      [Event.prediction
        (arbitrate ("UNKNOWN", 0) false ("GOOD", 1)
          (process_sign_language (fun _ => 0) [[⟨0, 0, 0⟩]])).1
        (arbitrate ("UNKNOWN", 0) false ("GOOD", 1)
          (process_sign_language (fun _ => 0) [[⟨0, 0, 0⟩]])).2] :=
  recognize_static_sign_always_unknown.2.2 (fun _ => 0) false
    (fun _ => ("GOOD", 1)) [] [[⟨0, 0, 0⟩]] (by decide) (by decide)

/-- C2 counterexample: with `is_loaded` false (and no model object) the
adapter's `predict` raises ValueError — it does not return
("Unknown", 0.0). -/
theorem inference_predict_unloaded_raises :
    inference_predict false false (fun _ => Except.ok ("HELLO", 1)) [] =
      Except.error "Model not loaded. Call load_model() first." ∧
    inference_predict false false (fun _ => Except.ok ("HELLO", 1)) [] ≠
      Except.ok ("Unknown", 0) := by
  constructor
  · rfl
  · intro h
    have heq : inference_predict false false
        (fun _ => Except.ok ("HELLO", 1)) [] =
        Except.error "Model not loaded. Call load_model() first." := rfl
    rw [heq] at h
    exact Except.noConfusion h

/-- C2 (amended).  When the service is loaded (`is_loaded` true, model
present) `predict` never raises: it returns a value for every input, in
particular ("Unknown", 0.0) for an empty landmark list (or any input whose
normalised hand list is empty), and ("Unknown", 0.0) whenever the wrapped
model's inference fails.  When `is_loaded` is false it instead raises
ValueError. -/
theorem inference_predict_loaded_total
    (model_predict : List (List Landmark) → Except String (String × ℚ))
    (landmarks : List (List RawLandmark)) :
    (∃ r, inference_predict true true model_predict landmarks = Except.ok r) ∧
    (landmarks = [] →
      inference_predict true true model_predict landmarks = Except.ok ("Unknown", 0)) ∧
    ((normalize_hands landmarks).length = 0 →
      inference_predict true true model_predict landmarks = Except.ok ("Unknown", 0)) ∧
    (∀ e, model_predict (normalize_hands landmarks) = Except.error e →
      inference_predict true true model_predict landmarks = Except.ok ("Unknown", 0)) ∧
    (∀ is_loaded model_present : Bool, ¬is_loaded ∨ ¬model_present →
      inference_predict is_loaded model_present model_predict landmarks =
        Except.error "Model not loaded. Call load_model() first.") := by
  have hcond : ¬(¬(true : Bool) ∨ ¬(true : Bool)) := by simp
  refine ⟨?_, ?_, ?_, ?_, ?_⟩
  · unfold inference_predict
    rw [if_neg hcond]
    by_cases h : (normalize_hands landmarks).length = 0
    · exact ⟨("Unknown", 0), by rw [if_pos h]⟩
    · rw [if_neg h]
      cases hm : model_predict (normalize_hands landmarks) with
      | ok r => exact ⟨r, rfl⟩
      | error e => exact ⟨("Unknown", 0), rfl⟩
  · intro h
    subst h
    rfl
  · intro h
    unfold inference_predict
    rw [if_neg hcond, if_pos h]
  · intro e he
    unfold inference_predict
    rw [if_neg hcond]
    by_cases h : (normalize_hands landmarks).length = 0
    · rw [if_pos h]
    · rw [if_neg h, he]
  · intro il mp h
    unfold inference_predict
    rw [if_pos h]

/-- Witness for C2's amended theorem: a loaded service whose model call
fails still returns ("Unknown", 0.0), and an unloaded one raises. -/
theorem inference_predict_loaded_total_witness :
    inference_predict true true (fun _ => Except.error "shape mismatch")
      [[⟨some 1, some 1, some 1⟩]] = Except.ok ("Unknown", 0) ∧
    inference_predict false true (fun _ => Except.error "shape mismatch")
      [[⟨some 1, some 1, some 1⟩]] =
      Except.error "Model not loaded. Call load_model() first." :=
  ⟨(inference_predict_loaded_total (fun _ => Except.error "shape mismatch")
      [[⟨some 1, some 1, some 1⟩]]).2.2.2.1 "shape mismatch" rfl,
   (inference_predict_loaded_total (fun _ => Except.error "shape mismatch")
      [[⟨some 1, some 1, some 1⟩]]).2.2.2.2 false true (Or.inl (by simp))⟩

/-- C3.  The endpoint's arbitration (api.py lines 436-452) follows the
spec's order and selection exactly: below 0.5 the adapter result replaces
the matcher's when strictly higher; below 0.3 the rule-based result
replaces the survivor when strictly higher.  When the adapter is not
loaded the code skips the call, which coincides with arbitrating against
the adapter's ("Unknown", 0.0) fallback pair as long as the matcher
confidence is nonnegative. -/
theorem arbitrate_matches_spec (dict_result ml_result rule_result : String × ℚ)
    (hd : 0 ≤ dict_result.2) :
    arbitrate dict_result true ml_result rule_result =
      arbitrateSpec dict_result ml_result rule_result ∧
    arbitrate dict_result false ml_result rule_result =
      arbitrateSpec dict_result ("Unknown", 0) rule_result := by
  constructor
  · simp [arbitrate, arbitrateSpec]
  · have h0 : ¬((0 : ℚ) > dict_result.2) := not_lt.mpr hd
    simp [arbitrate, arbitrateSpec, h0]

/-- Witness for C3 at concrete results (matcher 0.2, adapter 0.45,
fallback 0.6). -/
theorem arbitrate_matches_spec_witness :
    arbitrate ("UNKNOWN", 2/10) true ("HELLO", 45/100) ("GOOD", 6/10) =
      arbitrateSpec ("UNKNOWN", 2/10) ("HELLO", 45/100) ("GOOD", 6/10) ∧
    arbitrate ("UNKNOWN", 2/10) false ("HELLO", 45/100) ("GOOD", 6/10) =
      arbitrateSpec ("UNKNOWN", 2/10) ("Unknown", 0) ("GOOD", 6/10) :=
  arbitrate_matches_spec ("UNKNOWN", 2/10) ("HELLO", 45/100) ("GOOD", 6/10)
    (by norm_num)

/-- C6.  If a gesture is emitted by the temporal filter, the filter
records it; an identical gesture arriving within the 1 s cooldown window
is then suppressed and leaves the state unchanged, while an identical
gesture arriving once the window has elapsed is emitted again. -/
theorem temporal_filter_cooldown (st : TemporalFilterState)
    (g : RecognizedGesture) (t1 t2 : ℚ)
    (h1 : (apply_temporal_filter st g t1).2 = some g) :
    (apply_temporal_filter st g t1).1 = ⟨some g, t1⟩ ∧
    (t2 - t1 < recognition_cooldown →
      apply_temporal_filter (apply_temporal_filter st g t1).1 g t2 =
        (⟨some g, t1⟩, none)) ∧
    (recognition_cooldown ≤ t2 - t1 →
      (apply_temporal_filter (apply_temporal_filter st g t1).1 g t2).2 =
        some g) := by
  have hstate : (apply_temporal_filter st g t1).1 = ⟨some g, t1⟩ := by
    obtain ⟨lastr, lastt⟩ := st
    cases lastr with
    | none => rfl
    | some lastg =>
      have h1' : (if g.sign = lastg.sign ∧ t1 - lastt < recognition_cooldown
          then ((⟨some lastg, lastt⟩ : TemporalFilterState),
                (none : Option RecognizedGesture))
          else (⟨some g, t1⟩, some g)).2 = some g := h1
      show (if g.sign = lastg.sign ∧ t1 - lastt < recognition_cooldown
          then ((⟨some lastg, lastt⟩ : TemporalFilterState),
                (none : Option RecognizedGesture))
          else (⟨some g, t1⟩, some g)).1 = ⟨some g, t1⟩
      by_cases hc : g.sign = lastg.sign ∧ t1 - lastt < recognition_cooldown
      · rw [if_pos hc] at h1'
        simp at h1'
      · rw [if_neg hc]
  refine ⟨hstate, ?_, ?_⟩
  · intro hlt
    rw [hstate]
    show (if g.sign = g.sign ∧ t2 - t1 < recognition_cooldown then
        ((⟨some g, t1⟩ : TemporalFilterState), (none : Option RecognizedGesture))
      else (⟨some g, t2⟩, some g)) = (⟨some g, t1⟩, none)
    rw [if_pos ⟨rfl, hlt⟩]
  · intro hge
    rw [hstate]
    show (if g.sign = g.sign ∧ t2 - t1 < recognition_cooldown then
        ((⟨some g, t1⟩ : TemporalFilterState), (none : Option RecognizedGesture))
      else (⟨some g, t2⟩, some g)).2 = some g
    rw [if_neg (by rintro ⟨-, hlt⟩; linarith)]

/-- Witness for C6: a "HELLO" gesture at t=10 is recorded; the same
gesture at t=10.5 is suppressed, and at t=11.5 it is emitted again. -/
theorem temporal_filter_cooldown_witness :
    (apply_temporal_filter
      (apply_temporal_filter initTemporalState ⟨"HELLO", 9/10⟩ 10).1
      ⟨"HELLO", 9/10⟩ (21/2) = (⟨some ⟨"HELLO", 9/10⟩, 10⟩, none)) ∧
    ((apply_temporal_filter
      (apply_temporal_filter initTemporalState ⟨"HELLO", 9/10⟩ 10).1
      ⟨"HELLO", 9/10⟩ (23/2)).2 = some ⟨"HELLO", 9/10⟩) :=
  ⟨(temporal_filter_cooldown initTemporalState ⟨"HELLO", 9/10⟩ 10 (21/2)
      rfl).2.1 (by norm_num [recognition_cooldown]),
   (temporal_filter_cooldown initTemporalState ⟨"HELLO", 9/10⟩ 10 (23/2)
      rfl).2.2 (by norm_num [recognition_cooldown])⟩

/-- Flattening a landmark list yields 3 features per landmark. -/
theorem flat3_length (l : List Landmark) :
    (l.foldr (fun p acc => p.x :: p.y :: p.z :: acc) ([] : List ℚ)).length
      = 3 * l.length := by
  induction l with
  | nil => rfl
  | cons a t ih => simp [ih]; ring

/-- `flatten_landmarks` always produces exactly 63 features. -/
theorem flatten_landmarks_length (l : List Landmark) :
    (flatten_landmarks l).length = 63 := by
  unfold flatten_landmarks
  simp [List.length_take, flat3_length]
  omega

/-- A frame with both hands carrying 21 distinct landmarks each: used to
show `prepare_sequence` drops the second hand at the default width. -/
def c7hand1 : List RawLandmark := List.replicate 21 ⟨some 1, some 1, some 1⟩

/-- The second hand of the C7 frame; its coordinate value 5 never appears
in the produced row. -/
def c7hand2 : List RawLandmark := List.replicate 21 ⟨some 5, some 6, some 7⟩

/-- C7 counterexample: with the model's default `num_features` = 63 — the
value at every `SignLanguageModel` construction site in the repository —
a two-hand frame's feature row is 63 wide, not 126, and the second hand's
coordinates are truncated away. -/
theorem prepare_sequence_drops_second_hand :
    ((prepare_sequence 30 63 [c7hand1, c7hand2]).headD []).length = 63 ∧
    ¬((prepare_sequence 30 63 [c7hand1, c7hand2]).headD []).length = 126 ∧
    (5 : ℚ) ∉ (prepare_sequence 30 63 [c7hand1, c7hand2]).headD [] := by
  set_option maxRecDepth 100000 in decide

/-- C7 (amended).  `flatten_hands` always yields a 126-wide feature row,
zero-filling the slots of a missing second hand; `prepare_sequence`
instead truncates/pads its assembled features to `num_features` (63 at
every construction site in this repository, which drops the second hand's
slots) and tiles the single-frame row so the tensor has exactly
`sequence_length` rows of width `num_features`. -/
theorem feature_tensor_shapes (hands : List (List RawLandmark))
    (sequence_length num_features : ℕ) :
    (flatten_hands hands).length = 126 ∧
    (hands.length = 1 → (flatten_hands hands).drop 63 = List.replicate 63 0) ∧
    (prepare_sequence sequence_length num_features hands).length
      = sequence_length ∧
    (∀ row ∈ prepare_sequence sequence_length num_features hands,
        row.length = num_features) := by
  refine ⟨?_, ?_, ?_, ?_⟩
  · unfold flatten_hands
    by_cases h0 : 0 < min 2 hands.length <;>
      by_cases h1 : 1 < min 2 hands.length <;>
      simp [h0, h1, flatten_landmarks_length]
  · intro h1
    have hb0 : (0 : ℕ) < min 2 hands.length := by omega
    have hb1 : ¬((1 : ℕ) < min 2 hands.length) := by omega
    have hlen := flatten_landmarks_length (normalize_landmarks (hands.getD 0 []))
    show List.drop 63
        ((if (0 : ℕ) < min 2 hands.length then
            flatten_landmarks (normalize_landmarks (hands.getD 0 []))
          else List.replicate 63 0) ++
         (if (1 : ℕ) < min 2 hands.length then
            flatten_landmarks (normalize_landmarks (hands.getD 1 []))
          else List.replicate 63 0)) = List.replicate 63 0
    rw [if_pos hb0, if_neg hb1, ← hlen, List.drop_left]
  · unfold prepare_sequence
    by_cases h : hands.length = 0 <;> simp [h]
  · intro row hrow
    unfold prepare_sequence at hrow
    by_cases h : hands.length = 0
    · rw [if_pos h] at hrow
      rw [List.eq_of_mem_replicate hrow]
      simp
    · rw [if_neg h] at hrow
      rw [List.eq_of_mem_replicate hrow]
      simp [List.length_take]

/-- Witness for C7's amended theorem at a concrete one-hand frame. -/
theorem feature_tensor_shapes_witness :
    (flatten_hands [c7hand1]).length = 126 ∧
    (flatten_hands [c7hand1]).drop 63 = List.replicate 63 0 :=
  ⟨(feature_tensor_shapes [c7hand1] 30 63).1,
   (feature_tensor_shapes [c7hand1] 30 63).2.1 rfl⟩

/-- The `all` entry of the finger-states dict is by construction the
conjunction of the five per-finger flags. -/
theorem get_finger_states_all (hand : List Landmark) (s : FingerStates)
    (hs : get_finger_states hand = some s) :
    s.all = (s.thumb && s.index && s.middle && s.ring && s.pinky) := by
  unfold get_finger_states at hs
  by_cases h : 21 ≤ hand.length
  · rw [if_pos h] at hs
    cases hs
    rfl
  · rw [if_neg h] at hs
    cases hs

/-- A hand with exactly thumb, index and pinky extended (middle and ring
folded), under both implementations' extension tests. -/
def ilyHand : List Landmark :=
  [⟨0,1,0⟩, ⟨0,1,0⟩, ⟨0,1,0⟩, ⟨0,1,0⟩, ⟨1,0,0⟩,
   ⟨0,1,0⟩, ⟨0,1,0⟩, ⟨0,1,0⟩, ⟨0,0,0⟩, ⟨0,1,0⟩,
   ⟨0,1,0⟩, ⟨0,1,0⟩, ⟨0,1,0⟩, ⟨0,1,0⟩, ⟨0,1,0⟩,
   ⟨0,1,0⟩, ⟨0,1,0⟩, ⟨0,1,0⟩, ⟨0,1,0⟩, ⟨0,1,0⟩,
   ⟨0,0,0⟩]

/-- C8 counterexample: with thumb, index and pinky extended (and middle
and ring folded) `ASLRecognizer._get_hand_shape` answers "pointing" — the
index-without-middle branch fires before the I-love-you branch — and
`AdvancedASLRecognizer._get_hand_shape` answers "partial" (3 open
fingers); neither produces the I-love-you shape. -/
theorem hand_shape_ily_cex :
    get_finger_states ilyHand = some ⟨true, true, false, false, true, false⟩ ∧
    get_hand_shape ilyHand = "pointing" ∧
    get_hand_shape ilyHand ≠ "ily" ∧
    get_hand_shape_adv ilyHand = "partial" ∧
    get_hand_shape_adv ilyHand ≠ "ily" := by
  have h1 : get_finger_states ilyHand =
      some ⟨true, true, false, false, true, false⟩ := by
    norm_num [get_finger_states, lm, ilyHand]
  have h2 : get_hand_shape ilyHand = "pointing" := by
    norm_num [get_hand_shape, get_finger_states, lm, ilyHand]
  have h3 : get_hand_shape_adv ilyHand = "partial" := by
    norm_num [get_hand_shape_adv, get_finger_states_adv, lm, ilyHand]
  exact ⟨h1, h2, by rw [h2]; decide, h3, by rw [h3]; decide⟩

/-- C8 (amended).  The hand-shape classifiers behave as coded: in
`ASLRecognizer._get_hand_shape` — all five extended → "open_hand"; none
extended → "fist"; index without middle → "pointing"; index and middle
without ring → "peace"; a fully closed fist (every fingertip below its
PIP, thumb tucked) has all finger flags false and classifies "fist"; and
the "ily" branch is unreachable — no input ever classifies as the
I-love-you shape, because thumb+index+pinky without middle is caught by
the "pointing" branch and with middle (and then ring) the hand is fully
open.  In `AdvancedASLRecognizer._get_hand_shape` the classification is
purely by count: 0 → "fist", 5 → "open", 1 → "pointing", 2 → "peace",
3 or 4 → "partial" (no I-love-you shape exists there). -/
theorem hand_shape_classification (hand : List Landmark) (s : FingerStates)
    (hs : get_finger_states hand = some s) :
    (s.all = true → get_hand_shape hand = "open_hand") ∧
    (s.thumb = false → s.index = false → s.middle = false → s.ring = false →
      s.pinky = false → get_hand_shape hand = "fist") ∧
    (s.index = true → s.middle = false → get_hand_shape hand = "pointing") ∧
    (s.index = true → s.middle = true → s.ring = false →
      get_hand_shape hand = "peace") ∧
    ((lm hand 8).y > (lm hand 6).y → (lm hand 12).y > (lm hand 10).y →
     (lm hand 16).y > (lm hand 14).y → (lm hand 20).y > (lm hand 18).y →
     (lm hand 4).x ≤ (lm hand 3).x + 1/50 →
      s = ⟨false, false, false, false, false, false⟩ ∧
      get_hand_shape hand = "fist") ∧
    (∀ h' : List Landmark, get_hand_shape h' ≠ "ily") ∧
    (∀ h' : List Landmark,
      ((get_finger_states_adv h').countP (fun f => f > 1/2) = 0 →
        get_hand_shape_adv h' = "fist") ∧
      ((get_finger_states_adv h').countP (fun f => f > 1/2) = 5 →
        get_hand_shape_adv h' = "open") ∧
      ((get_finger_states_adv h').countP (fun f => f > 1/2) = 1 →
        get_hand_shape_adv h' = "pointing") ∧
      ((get_finger_states_adv h').countP (fun f => f > 1/2) = 2 →
        get_hand_shape_adv h' = "peace") ∧
      ((get_finger_states_adv h').countP (fun f => f > 1/2) = 3 ∨
        (get_finger_states_adv h').countP (fun f => f > 1/2) = 4 →
        get_hand_shape_adv h' = "partial")) := by
  have hall := get_finger_states_all hand s hs
  refine ⟨?_, ?_, ?_, ?_, ?_, ?_, ?_⟩
  · intro h
    simp [get_hand_shape, hs, h]
  · intro h1 h2 h3 h4 h5
    simp [get_hand_shape, hs, h1, h2, h3, h4, h5, hall]
  · intro h1 h2
    simp [get_hand_shape, hs, h1, h2, hall]
  · intro h1 h2 h3
    simp [get_hand_shape, hs, h1, h2, h3, hall]
  · intro h8 h12 h16 h20 hthumbx
    have t1 : ¬((lm hand 4).x > (lm hand 3).x + 1/50) := not_lt.mpr hthumbx
    have t2 : ¬((lm hand 8).y < (lm hand 6).y - 1/50) := by intro hlt; linarith
    have t3 : ¬((lm hand 12).y < (lm hand 10).y - 1/50) := by intro hlt; linarith
    have t4 : ¬((lm hand 16).y < (lm hand 14).y - 1/50) := by intro hlt; linarith
    have t5 : ¬((lm hand 20).y < (lm hand 18).y - 1/50) := by intro hlt; linarith
    have h21 : 21 ≤ hand.length := by
      by_contra h21
      unfold get_finger_states at hs
      rw [if_neg h21] at hs
      cases hs
    have hs2 : get_finger_states hand =
        some ⟨false, false, false, false, false, false⟩ := by
      unfold get_finger_states
      rw [if_pos h21]
      simp [t1, t2, t3, t4, t5]
      refine ⟨?_, ?_, ?_, ?_, ?_, ?_⟩ <;> intros <;> linarith
    have hss : s = ⟨false, false, false, false, false, false⟩ := by
      rw [hs] at hs2
      exact Option.some.inj hs2
    refine ⟨hss, ?_⟩
    simp [get_hand_shape, hs2]
  · intro hh
    unfold get_hand_shape
    cases hfs : get_finger_states hh with
    | none => decide
    | some s' =>
      have hall' := get_finger_states_all hh s' hfs
      obtain ⟨t, i, m, r, p, a⟩ := s'
      simp only at hall'
      cases t <;> cases i <;> cases m <;> cases r <;> cases p <;> cases a <;>
        first
        | exact absurd hall' (by decide)
        | decide
  · intro hh
    have key : ∀ n : ℕ,
        (get_finger_states_adv hh).countP (fun f => f > 1/2) = n →
        get_hand_shape_adv hh =
          (if n = 0 then "fist" else if n = 5 then "open"
           else if n = 1 then "pointing" else if n = 2 then "peace"
           else "partial") := by
      intro n hc
      show (if (get_finger_states_adv hh).countP (fun f => f > 1/2) = 0
          then "fist"
        else if (get_finger_states_adv hh).countP (fun f => f > 1/2) = 5
          then "open"
        else if (get_finger_states_adv hh).countP (fun f => f > 1/2) = 1
          then "pointing"
        else if (get_finger_states_adv hh).countP (fun f => f > 1/2) = 2
          then "peace"
        else "partial") = _
      rw [hc]
    refine ⟨?_, ?_, ?_, ?_, ?_⟩
    · intro hc
      rw [key 0 hc]
      decide
    · intro hc
      rw [key 5 hc]
      decide
    · intro hc
      rw [key 1 hc]
      decide
    · intro hc
      rw [key 2 hc]
      decide
    · rintro (hc | hc)
      · rw [key 3 hc]
        decide
      · rw [key 4 hc]
        decide

/-- A fully closed fist: every fingertip (indices 8, 12, 16, 20) below its
PIP joint (y strictly larger), thumb tucked. -/
def fistHand : List Landmark :=
  [⟨0,1,0⟩, ⟨0,1,0⟩, ⟨0,1,0⟩, ⟨0,1,0⟩, ⟨0,1,0⟩,
   ⟨0,1,0⟩, ⟨0,1,0⟩, ⟨0,1,0⟩, ⟨0,2,0⟩, ⟨0,1,0⟩,
   ⟨0,1,0⟩, ⟨0,1,0⟩, ⟨0,2,0⟩, ⟨0,1,0⟩, ⟨0,1,0⟩,
   ⟨0,1,0⟩, ⟨0,2,0⟩, ⟨0,1,0⟩, ⟨0,1,0⟩, ⟨0,1,0⟩,
   ⟨0,2,0⟩]

/-- Witness for C8: the concrete closed fist has all finger flags false
and classifies as "fist". -/
theorem hand_shape_classification_witness :
    get_finger_states fistHand =
      some ⟨false, false, false, false, false, false⟩ ∧
    get_hand_shape fistHand = "fist" := by
  have hs : get_finger_states fistHand =
      some ⟨false, false, false, false, false, false⟩ := by
    norm_num [get_finger_states, lm, fistHand]
  have h := (hand_shape_classification fistHand _ hs).2.2.2.2.1
    (by norm_num [lm, fistHand]) (by norm_num [lm, fistHand])
    (by norm_num [lm, fistHand]) (by norm_num [lm, fistHand])
    (by norm_num [lm, fistHand])
  exact ⟨hs, h.2⟩

/-- C1 counterexample: on a first frame holding one single-landmark hand
(no ML model loaded — the repository's default), every recogniser stage
yields zero confidence, the final result is ("UNKNOWN", 0), and the
endpoint still sends the prediction event: label "UNKNOWN", confidence
0, below the 0.4 rejection threshold. -/
theorem pipeline_emits_unknown_cex :
    (processLandmarksMessage (fun _ => 0) false (fun _ => ("GOOD", 1)) []
        [[⟨0, 0, 0⟩]]).2 = [Event.prediction "UNKNOWN" 0] ∧
    ¬((2/5 : ℚ) ≤ 0) := by
  constructor
  · norm_num [processLandmarksMessage, gestureHistoryAppend,
      recognize_static_sign, arbitrate, process_sign_language,
      analyze_hand_gesture]
  · norm_num

/-- C1 (amended).  The api.py landmarks branch applies no rejection
threshold and no UNKNOWN filter: for every nonempty frame it sends exactly
one prediction event carrying the arbitrated result unchanged (static
branch), or an error event (the crashing dynamic branch at 5+ buffered
frames).  Threshold gating exists only elsewhere: the legacy-format
branch emits only when the confidence exceeds 0.5 and the word is not
"Unknown", and the enhanced handler emits a prediction only at
confidence ≥ 0.7, sending a low-confidence event below it and nothing
during cooldown or with a short buffer. -/
theorem emission_policy (sq : ℚ → ℚ) (ml_loaded : Bool)
    (ml_predict : List (List Landmark) → String × ℚ)
    (history : List (List (List Landmark))) (pose_data : List (List Landmark))
    (buffer_len : ℕ) (current_time last_pred_time : ℚ)
    (prediction : String × ℚ) (landmarks : List Landmark) :
    (pose_data.length ≠ 0 →
      (gestureHistoryAppend history pose_data).length < 5 →
      (processLandmarksMessage sq ml_loaded ml_predict history pose_data).2 =
        [Event.prediction
          (arbitrate (recognize_static_sign (pose_data.headD []))
            ml_loaded (ml_predict pose_data)
            (process_sign_language sq pose_data)).1
          (arbitrate (recognize_static_sign (pose_data.headD []))
            ml_loaded (ml_predict pose_data)
            (process_sign_language sq pose_data)).2]) ∧
    (pose_data.length ≠ 0 →
      5 ≤ (gestureHistoryAppend history pose_data).length →
      (processLandmarksMessage sq ml_loaded ml_predict history pose_data).2 =
        [Event.error "Error processing hand coordinates"]) ∧
    ((process_sign_language sq
        (if landmarks.length ≠ 0 then [landmarks] else [])).2 > 1/2 ∧
      (process_sign_language sq
        (if landmarks.length ≠ 0 then [landmarks] else [])).1 ≠ "Unknown" →
      processLegacyLandmarks sq landmarks =
        [Event.legacy_prediction
          (process_sign_language sq
            (if landmarks.length ≠ 0 then [landmarks] else [])).1
          (process_sign_language sq
            (if landmarks.length ≠ 0 then [landmarks] else [])).2]) ∧
    (¬((process_sign_language sq
        (if landmarks.length ≠ 0 then [landmarks] else [])).2 > 1/2 ∧
      (process_sign_language sq
        (if landmarks.length ≠ 0 then [landmarks] else [])).1 ≠ "Unknown") →
      processLegacyLandmarks sq landmarks = []) ∧
    (15 ≤ buffer_len ∧ current_time - last_pred_time ≥ 1/2 →
      (prediction.2 ≥ 7/10 →
        handlerProcessPrediction buffer_len current_time last_pred_time
          prediction = [Event.prediction prediction.1 prediction.2]) ∧
      (¬(prediction.2 ≥ 7/10) →
        handlerProcessPrediction buffer_len current_time last_pred_time
          prediction = [Event.low_confidence prediction.2])) ∧
    (¬(15 ≤ buffer_len ∧ current_time - last_pred_time ≥ 1/2) →
      handlerProcessPrediction buffer_len current_time last_pred_time
        prediction = []) := by
  refine ⟨?_, ?_, ?_, ?_, ?_, ?_⟩
  · intro h1 h2
    unfold processLandmarksMessage
    rw [if_neg h1, if_neg (by omega)]
  · intro h1 h2
    unfold processLandmarksMessage
    rw [if_neg h1, if_pos h2]
  · intro hcond
    show (if (process_sign_language sq
          (if landmarks.length ≠ 0 then [landmarks] else [])).2 > 1/2 ∧
        (process_sign_language sq
          (if landmarks.length ≠ 0 then [landmarks] else [])).1 ≠ "Unknown"
      then [Event.legacy_prediction
          (process_sign_language sq
            (if landmarks.length ≠ 0 then [landmarks] else [])).1
          (process_sign_language sq
            (if landmarks.length ≠ 0 then [landmarks] else [])).2]
      else []) = _
    rw [if_pos hcond]
  · intro hcond
    show (if (process_sign_language sq
          (if landmarks.length ≠ 0 then [landmarks] else [])).2 > 1/2 ∧
        (process_sign_language sq
          (if landmarks.length ≠ 0 then [landmarks] else [])).1 ≠ "Unknown"
      then [Event.legacy_prediction
          (process_sign_language sq
            (if landmarks.length ≠ 0 then [landmarks] else [])).1
          (process_sign_language sq
            (if landmarks.length ≠ 0 then [landmarks] else [])).2]
      else []) = _
    rw [if_neg hcond]
  · intro hgate
    constructor
    · intro hconf
      unfold handlerProcessPrediction
      rw [if_pos hgate, if_pos hconf]
    · intro hconf
      unfold handlerProcessPrediction
      rw [if_pos hgate, if_neg hconf]
  · intro hgate
    unfold handlerProcessPrediction
    rw [if_neg hgate]

/-- Witness for C1's amended theorem at the concrete first frame. -/
theorem emission_policy_witness :
    (processLandmarksMessage (fun _ => 0) false (fun _ => ("GOOD", 1)) []
        [[⟨0, 0, 0⟩]]).2 =
      [Event.prediction
        (arbitrate (recognize_static_sign ([[(⟨0, 0, 0⟩ : Landmark)]].headD []))
          false (("GOOD", 1) : String × ℚ)
          (process_sign_language (fun _ => 0) [[⟨0, 0, 0⟩]])).1
        (arbitrate (recognize_static_sign ([[(⟨0, 0, 0⟩ : Landmark)]].headD []))
          false (("GOOD", 1) : String × ℚ)
          (process_sign_language (fun _ => 0) [[⟨0, 0, 0⟩]])).2] :=
  (emission_policy (fun _ => 0) false (fun _ => ("GOOD", 1)) [] [[⟨0, 0, 0⟩]]
    0 0 0 ("X", 0) []).1 (by decide) (by decide)

/-- If every type-matching entry scores no higher than the running best,
the best-match loop keeps its accumulator. -/
theorem bestFold_stay (score : SignDefinition → ℚ)
    (isType : SignDefinition → Bool) (l : List (String × SignDefinition))
    (acc : String × ℚ)
    (h : ∀ q ∈ l, isType q.2 = true → score q.2 ≤ acc.2) :
    bestFold score isType l acc = acc := by
  induction l with
  | nil => rfl
  | cons q t ih =>
    have hq : bestStep score isType acc q = acc := by
      unfold bestStep
      by_cases h1 : isType q.2 = true
      · rw [if_pos h1, if_neg (not_lt.mpr (h q (List.mem_cons_self q t) h1))]
      · rw [if_neg h1]
    rw [bestFold, List.foldl_cons, hq]
    exact ih fun x hx => h x (List.mem_cons_of_mem q hx)

/-- If the initial confidence and every type-matching entry's score are
below `s`, so is the loop's final confidence. -/
theorem bestFold_snd_lt (score : SignDefinition → ℚ)
    (isType : SignDefinition → Bool) (l : List (String × SignDefinition))
    (init : String × ℚ) (s : ℚ) (hinit : init.2 < s)
    (h : ∀ q ∈ l, isType q.2 = true → score q.2 < s) :
    (bestFold score isType l init).2 < s := by
  induction l generalizing init with
  | nil => simpa [bestFold]
  | cons q t ih =>
    rw [bestFold, List.foldl_cons]
    refine ih (bestStep score isType init q) ?_
      (fun x hx => h x (List.mem_cons_of_mem q hx))
    unfold bestStep
    by_cases h1 : isType q.2 = true
    · rw [if_pos h1]
      by_cases h2 : score q.2 > init.2
      · rw [if_pos h2]
        exact h q (List.mem_cons_self q t) h1
      · rw [if_neg h2]
        exact hinit
    · rw [if_neg h1]
      exact hinit

/-- The best-match step right-commutes on any two catalog entries whose
type-matching scores never collide (the tie-free situation). -/
theorem bestStep_comm (score : SignDefinition → ℚ)
    (isType : SignDefinition → Bool) (l : List (String × SignDefinition))
    (hnd : ((l.filter fun e => isType e.2).map fun e => score e.2).Nodup)
    (x : String × SignDefinition) (hx : x ∈ l)
    (y : String × SignDefinition) (hy : y ∈ l) (z : String × ℚ) :
    bestStep score isType (bestStep score isType z x) y =
      bestStep score isType (bestStep score isType z y) x := by
  by_cases htx : isType x.2 = true
  · by_cases hty : isType y.2 = true
    · by_cases hxy : x = y
      · rw [hxy]
      · have hsc : score x.2 ≠ score y.2 := by
          intro hcontra
          exact hxy (List.inj_on_of_nodup_map hnd
            (List.mem_filter.mpr ⟨hx, htx⟩)
            (List.mem_filter.mpr ⟨hy, hty⟩) hcontra)
        unfold bestStep
        rw [if_pos htx, if_pos hty, if_pos htx, if_pos hty]
        split_ifs <;>
          first
          | rfl
          | (exfalso; apply hsc; linarith)
    · simp [bestStep, htx, hty]
  · by_cases hty : isType y.2 = true
    · simp [bestStep, htx, hty]
    · simp [bestStep, htx, hty]

/-- C9.  The matcher loop is a pure function of the feature input and the
catalog, so identical inputs give identical (label, confidence) across
runs; permuting the catalog does not change the result as long as no two
type-matching entries score exactly equal; and when entries tie at a
positive maximal score, the entry earliest in catalog iteration order
wins (the loop replaces its best only on a strictly higher score). -/
theorem sign_matcher_order_and_ties :
    (∀ (score : SignDefinition → ℚ) (isType : SignDefinition → Bool)
        (catalog catalog' : List (String × SignDefinition))
        (init : String × ℚ),
      catalog.Perm catalog' →
      ((catalog.filter fun e => isType e.2).map fun e => score e.2).Nodup →
      bestFold score isType catalog init = bestFold score isType catalog' init) ∧
    (∀ (score : SignDefinition → ℚ) (isType : SignDefinition → Bool)
        (l1 l2 : List (String × SignDefinition)) (p : String × SignDefinition),
      isType p.2 = true → 0 < score p.2 →
      (∀ q ∈ l1, isType q.2 = true → score q.2 < score p.2) →
      (∀ q ∈ l2, isType q.2 = true → score q.2 ≤ score p.2) →
      bestFold score isType (l1 ++ p :: l2) ("UNKNOWN", 0) = (p.1, score p.2)) := by
  constructor
  · intro score isType catalog catalog' init hperm hnd
    exact hperm.foldl_eq'
      (fun x hx y hy z => bestStep_comm score isType catalog hnd x hx y hy z) init
  · intro score isType l1 l2 p htp hpos h1 h2
    have hfold1 : (bestFold score isType l1 ("UNKNOWN", 0)).2 < score p.2 :=
      bestFold_snd_lt score isType l1 ("UNKNOWN", 0) (score p.2) hpos h1
    have hstep : bestStep score isType (bestFold score isType l1 ("UNKNOWN", 0)) p
        = (p.1, score p.2) := by
      unfold bestStep
      rw [if_pos htp, if_pos hfold1]
    show List.foldl (bestStep score isType) ("UNKNOWN", 0) (l1 ++ p :: l2)
      = (p.1, score p.2)
    rw [List.foldl_append, List.foldl_cons]
    show bestFold score isType l2
      (bestStep score isType (bestFold score isType l1 ("UNKNOWN", 0)) p)
      = (p.1, score p.2)
    rw [hstep]
    exact bestFold_stay score isType l2 (p.1, score p.2) h2

/-- A minimal catalog entry used in the C9 tie witness. -/
def testDef (n : String) : SignDefinition :=
  { name := n, type := ASLSignType.STATIC, description := "", hand_shape := "" }

/-- Witness for C9: with a constructed exact tie between "B" and "C" at
score 1 (and "A" scoring lower and earlier), the first tied entry "B"
wins. -/
theorem sign_matcher_order_and_ties_witness :
    bestFold (fun sd => if sd.name = "A" then 1/2 else 1) (fun _ => true)
      ([("A", testDef "A")] ++ ("B", testDef "B") :: [("C", testDef "C")])
      ("UNKNOWN", 0) = ("B", 1) := by
  have h := sign_matcher_order_and_ties.2
    (fun sd => if sd.name = "A" then 1/2 else 1) (fun _ => true)
    [("A", testDef "A")] [("C", testDef "C")] ("B", testDef "B")
    rfl
    (by
      show (0 : ℚ) < if (testDef "B").name = "A" then 1/2 else 1
      rw [if_neg (by decide : ¬(testDef "B").name = "A")]
      norm_num)
    (by
      intro q hq _
      rw [List.mem_singleton] at hq
      subst hq
      show (if (testDef "A").name = "A" then (1/2 : ℚ) else 1) <
        if (testDef "B").name = "A" then 1/2 else 1
      rw [if_pos (by decide : (testDef "A").name = "A"),
        if_neg (by decide : ¬(testDef "B").name = "A")]
      norm_num)
    (by
      intro q hq _
      rw [List.mem_singleton] at hq
      subst hq
      show (if (testDef "C").name = "A" then (1/2 : ℚ) else 1) ≤
        if (testDef "B").name = "A" then 1/2 else 1
      rw [if_neg (by decide : ¬(testDef "C").name = "A"),
        if_neg (by decide : ¬(testDef "B").name = "A")])
  simpa [testDef] using h

/-- Each factor block of the static matcher contributes at least 0 and at
most its factor count. -/
theorem msPart_bounds (features : HandFeaturesASL) (sd : SignDefinition) :
    (0 ≤ (msFingerPart features sd).1 ∧
      (msFingerPart features sd).1 ≤ ((msFingerPart features sd).2 : ℚ)) ∧
    (0 ≤ (msOrientPart features sd).1 ∧
      (msOrientPart features sd).1 ≤ ((msOrientPart features sd).2 : ℚ)) ∧
    (0 ≤ (msPosPart features sd).1 ∧
      (msPosPart features sd).1 ≤ ((msPosPart features sd).2 : ℚ)) := by
  refine ⟨?_, ?_, ?_⟩
  · cases hfs : sd.finger_states with
    | none =>
      have he : msFingerPart features sd = (0, 0) := by
        unfold msFingerPart
        rw [hfs]
      rw [he]
      norm_num
    | some fsd =>
      have he : msFingerPart features sd =
          if fsd.length ≠ 0 then
            ((fsd.countP fun p =>
                fingerLookup features.finger_states p.1 == some p.2 : ℚ)
              / (fsd.length : ℚ), 1)
          else (0, 0) := by
        unfold msFingerPart
        rw [hfs]
      rw [he]
      by_cases hlen : fsd.length ≠ 0
      · rw [if_pos hlen]
        have hcount : (fsd.countP fun p =>
            fingerLookup features.finger_states p.1 == some p.2) ≤ fsd.length :=
          List.countP_le_length _
        have hlen' : (0 : ℚ) < (fsd.length : ℚ) := by
          have hpos : 0 < fsd.length := Nat.pos_of_ne_zero hlen
          exact_mod_cast hpos
        constructor
        · exact div_nonneg (by positivity) (le_of_lt hlen')
        · show _ / _ ≤ ((1 : ℕ) : ℚ)
          rw [Nat.cast_one, div_le_one hlen']
          exact_mod_cast hcount
      · rw [if_neg hlen]
        norm_num
  · unfold msOrientPart
    split_ifs <;> norm_num
  · unfold msPosPart
    split_ifs <;> norm_num

/-- The static matcher's score lies in [0, 1]: the summed contributions
never exceed the factor count, and dividing by it (or returning 0 with no
factors) stays in the unit interval. -/
theorem match_static_sign_bounds (features : HandFeaturesASL)
    (sd : SignDefinition) :
    0 ≤ match_static_sign features sd ∧ match_static_sign features sd ≤ 1 := by
  obtain ⟨⟨f0, f1⟩, ⟨o0, o1⟩, ⟨p0, p1⟩⟩ := msPart_bounds features sd
  unfold match_static_sign
  by_cases hf : 0 < (msFingerPart features sd).2 +
      (msOrientPart features sd).2 + (msPosPart features sd).2
  · rw [if_pos hf]
    have hfq : (0 : ℚ) < (((msFingerPart features sd).2 +
        (msOrientPart features sd).2 + (msPosPart features sd).2 : ℕ) : ℚ) := by
      exact_mod_cast hf
    constructor
    · exact div_nonneg (by linarith) (le_of_lt hfq)
    · rw [div_le_one hfq]
      push_cast
      linarith
  · rw [if_neg hf]
    norm_num

/-- The dynamic matcher's score lies in [0, 1]. -/
theorem match_dynamic_sign_bounds (features : Option MotionFeaturesASL)
    (sd : SignDefinition) :
    0 ≤ match_dynamic_sign features sd ∧ match_dynamic_sign features sd ≤ 1 := by
  unfold match_dynamic_sign
  cases features with
  | none => norm_num
  | some f =>
    refine ⟨?_, ?_⟩ <;>
      (split_ifs <;> try norm_num) <;>
      (split_ifs <;> norm_num)

/-- A ≤-variant of `bestFold_snd_lt`: the loop's confidence never exceeds
a bound dominating the initial value and every candidate score. -/
theorem bestFold_snd_le (score : SignDefinition → ℚ)
    (isType : SignDefinition → Bool) (l : List (String × SignDefinition))
    (init : String × ℚ) (s : ℚ) (hinit : init.2 ≤ s)
    (h : ∀ q ∈ l, isType q.2 = true → score q.2 ≤ s) :
    (bestFold score isType l init).2 ≤ s := by
  induction l generalizing init with
  | nil => simpa [bestFold]
  | cons q t ih =>
    rw [bestFold, List.foldl_cons]
    refine ih (bestStep score isType init q) ?_
      (fun x hx => h x (List.mem_cons_of_mem q hx))
    unfold bestStep
    by_cases h1 : isType q.2 = true
    · rw [if_pos h1]
      by_cases h2 : score q.2 > init.2
      · rw [if_pos h2]
        exact h q (List.mem_cons_self q t) h1
      · rw [if_neg h2]
        exact hinit
    · rw [if_neg h1]
      exact hinit

/-- The loop's confidence never drops below its initial value. -/
theorem bestFold_init_le (score : SignDefinition → ℚ)
    (isType : SignDefinition → Bool) (l : List (String × SignDefinition))
    (init : String × ℚ) :
    init.2 ≤ (bestFold score isType l init).2 := by
  induction l generalizing init with
  | nil => simp [bestFold]
  | cons q t ih =>
    rw [bestFold, List.foldl_cons]
    refine le_trans ?_ (ih (bestStep score isType init q))
    unfold bestStep
    by_cases h1 : isType q.2 = true
    · rw [if_pos h1]
      by_cases h2 : score q.2 > init.2
      · rw [if_pos h2]
        exact le_of_lt h2
      · rw [if_neg h2]
    · rw [if_neg h1]

/-- The static recogniser's confidence lies in [0, 1]. -/
theorem recognize_static_conf_bounds (hand : List Landmark) :
    0 ≤ (recognize_static_sign hand).2 ∧ (recognize_static_sign hand).2 ≤ 1 := by
  unfold recognize_static_sign
  by_cases h : hand.length = 0 ∨ hand.length < 21
  · rw [if_pos h]
    norm_num
  · rw [if_neg h]
    constructor
    · simpa using bestFold_init_le
        (match_static_sign (extract_hand_features hand))
        (fun sd => sd.type = ASLSignType.STATIC) ASL_DICTIONARY ("UNKNOWN", 0)
    · exact bestFold_snd_le _ _ _ _ 1 (by norm_num)
        (fun q _ _ => (match_static_sign_bounds (extract_hand_features hand) q.2).2)

/-- The dynamic recogniser's confidence lies in [0, 1]. -/
theorem recognize_dynamic_conf_bounds (sq : ℚ → ℚ)
    (seq : List (List Landmark)) :
    0 ≤ (recognize_dynamic_sign sq seq).2 ∧
      (recognize_dynamic_sign sq seq).2 ≤ 1 := by
  unfold recognize_dynamic_sign
  by_cases h : seq.length = 0 ∨ seq.length < 5
  · rw [if_pos h]
    norm_num
  · rw [if_neg h]
    constructor
    · simpa using bestFold_init_le
        (match_dynamic_sign (extract_motion_features sq seq))
        (fun sd => sd.type = ASLSignType.DYNAMIC ∨ sd.type = ASLSignType.TWO_HANDED)
        ASL_DICTIONARY ("UNKNOWN", 0)
    · exact bestFold_snd_le _ _ _ _ 1 (by norm_num)
        (fun q _ _ =>
          (match_dynamic_sign_bounds (extract_motion_features sq seq) q.2).2)

/-- Branching on a condition preserves unit-interval confidences. -/
theorem ite_pair_bounds (c : Prop) [Decidable c] (a b : String × ℚ)
    (ha : 0 ≤ a.2 ∧ a.2 ≤ 1) (hb : 0 ≤ b.2 ∧ b.2 ≤ 1) :
    0 ≤ (if c then a else b).2 ∧ (if c then a else b).2 ≤ 1 := by
  by_cases h : c
  · rw [if_pos h]
    exact ha
  · rw [if_neg h]
    exact hb

/-- The rule-based fallback's confidence lies in [0, 1] (every branch
returns a literal in the unit interval). -/
theorem process_sign_language_bounds (sq : ℚ → ℚ)
    (pose_data : List (List Landmark)) :
    0 ≤ (process_sign_language sq pose_data).2 ∧
      (process_sign_language sq pose_data).2 ≤ 1 := by
  have hone : ∀ h : GestureFeatures,
      0 ≤ (psl_one_hand h).2 ∧ (psl_one_hand h).2 ≤ 1 := by
    intro h
    unfold psl_one_hand
    iterate 13 (apply ite_pair_bounds) <;> norm_num
  have htwo : ∀ hl hr : GestureFeatures,
      0 ≤ (psl_two_hands hl hr).2 ∧ (psl_two_hands hl hr).2 ≤ 1 := by
    intro hl hr
    unfold psl_two_hands
    iterate 7 (apply ite_pair_bounds) <;> norm_num
  unfold process_sign_language
  by_cases h0 : pose_data.length = 0
  · rw [if_pos h0]
    norm_num
  · rw [if_neg h0]
    cases hm : pose_data.filterMap (analyze_hand_gesture sq) with
    | nil => norm_num
    | cons hand rest =>
      show 0 ≤ (if pose_data.length = 1 then psl_one_hand hand
          else if pose_data.length = 2 then psl_two_hands hand (rest.headD hand)
          else ("Unknown", 45/100)).2 ∧
        (if pose_data.length = 1 then psl_one_hand hand
          else if pose_data.length = 2 then psl_two_hands hand (rest.headD hand)
          else ("Unknown", 45/100)).2 ≤ 1
      split_ifs
      · exact hone hand
      · exact htwo hand (rest.headD hand)
      · norm_num

/-- The context modifier is nonnegative (values 1, 0.95, 0.9, 1.05, 1). -/
theorem context_modifier_nonneg (c : String) : 0 ≤ context_modifier c := by
  unfold context_modifier
  split_ifs <;> norm_num

/-- The landmark-stability factor lies in [0, 1] (values 1, 0.5, 0.7). -/
theorem landmark_stability_bounds (l : Option (Option (List ℕ))) :
    0 ≤ landmark_stability l ∧ landmark_stability l ≤ 1 := by
  rcases l with _ | (_ | hands)
  · norm_num [landmark_stability]
  · norm_num [landmark_stability]
  · have he : landmark_stability (some (some hands)) =
        if hands.length = 0 then 1/2
        else if hands.any (fun n => n < 21) then 7/10 else 1 := rfl
    rw [he]
    split_ifs <;> norm_num

/-- Temporal smoothing keeps a nonnegative confidence nonnegative (it
multiplies by 1.1 capped at 1, by 0.9, or leaves it unchanged). -/
theorem apply_temporal_smoothing_nonneg (history : List ℕ) (i : ℕ) (c : ℚ)
    (hc : 0 ≤ c) : 0 ≤ apply_temporal_smoothing history i c := by
  unfold apply_temporal_smoothing
  split_ifs
  · exact hc
  · exact le_min (by positivity) zero_le_one
  · positivity
  · exact hc

/-- An element read with default 0 from a list of unit-interval values is
nonnegative. -/
theorem getD_nonneg_of_forall (l : List ℚ) (n : ℕ)
    (hp : ∀ x ∈ l, 0 ≤ x ∧ x ≤ 1) : 0 ≤ l.getD n 0 := by
  by_cases h : n < l.length
  · rw [List.getD_eq_getElem _ _ h]
    exact (hp _ (List.getElem_mem h)).1
  · rw [List.getD_eq_default _ _ (le_of_not_lt h)]

/-- The confidence system's final score lies in [0, 1] for probability
inputs: the final `min (· , 1)` caps it above, and every factor — base
probability, context modifier, entropy penalty (normalised entropy in
[0,1]), stability, smoothing, calibration (clipped to [0.8, 1.2]) — is
nonnegative. -/
theorem calculate_confidence_bounds (predictions : List ℚ)
    (normalized_entropy : ℚ) (lmk : Option (Option (List ℕ)))
    (context : String) (history : List ℕ) (calibration_factor : ℚ)
    (hp : ∀ x ∈ predictions, 0 ≤ x ∧ x ≤ 1)
    (hne : 0 ≤ normalized_entropy ∧ normalized_entropy ≤ 1)
    (hcf : 4/5 ≤ calibration_factor ∧ calibration_factor ≤ 6/5) :
    0 ≤ (calculate_confidence predictions normalized_entropy lmk context
        history calibration_factor).2 ∧
    (calculate_confidence predictions normalized_entropy lmk context
        history calibration_factor).2 ≤ 1 := by
  have hbase : 0 ≤ predictions.getD (argmaxIdx predictions) 0 :=
    getD_nonneg_of_forall _ _ hp
  have hpen : 0 ≤ 1 - normalized_entropy * (3/10) := by nlinarith [hne.1, hne.2]
  have ha2 : 0 ≤ predictions.getD (argmaxIdx predictions) 0 *
      context_modifier context * (1 - normalized_entropy * (3/10)) :=
    mul_nonneg (mul_nonneg hbase (context_modifier_nonneg context)) hpen
  have hcfpos : (0 : ℚ) ≤ calibration_factor := by linarith [hcf.1]
  cases lmk with
  | none =>
    have hA4 : 0 ≤ (if history.length ≠ 0 then
        apply_temporal_smoothing history (argmaxIdx predictions)
          (predictions.getD (argmaxIdx predictions) 0 * context_modifier context *
            (1 - normalized_entropy * (3/10)))
      else predictions.getD (argmaxIdx predictions) 0 * context_modifier context *
            (1 - normalized_entropy * (3/10))) := by
      by_cases hh : history.length ≠ 0
      · rw [if_pos hh]
        exact apply_temporal_smoothing_nonneg _ _ _ ha2
      · rw [if_neg hh]
        exact ha2
    exact ⟨le_min (mul_nonneg hA4 hcfpos) zero_le_one, min_le_right _ _⟩
  | some lmk2 =>
    have ha3 : 0 ≤ predictions.getD (argmaxIdx predictions) 0 *
        context_modifier context * (1 - normalized_entropy * (3/10)) *
        landmark_stability (some lmk2) :=
      mul_nonneg ha2 (landmark_stability_bounds (some lmk2)).1
    have hA4 : 0 ≤ (if history.length ≠ 0 then
        apply_temporal_smoothing history (argmaxIdx predictions)
          (predictions.getD (argmaxIdx predictions) 0 * context_modifier context *
            (1 - normalized_entropy * (3/10)) * landmark_stability (some lmk2))
      else predictions.getD (argmaxIdx predictions) 0 * context_modifier context *
            (1 - normalized_entropy * (3/10)) * landmark_stability (some lmk2)) := by
      by_cases hh : history.length ≠ 0
      · rw [if_pos hh]
        exact apply_temporal_smoothing_nonneg _ _ _ ha3
      · rw [if_neg hh]
        exact ha3
    exact ⟨le_min (mul_nonneg hA4 hcfpos) zero_le_one, min_le_right _ _⟩

/-- C10.  Every confidence the recognition pipeline produces lies in
[0, 1]: the static and dynamic dictionary matchers and their best-match
loops, the rule-based fallback's literal scores, and the confidence
system's final value — for probability-vector input (entries and
normalised entropy in [0, 1]) and a calibration factor inside its clipped
[0.8, 1.2] range, after the context, entropy, stability and
temporal-smoothing adjustments and the final cap at 1. -/
theorem confidence_always_in_unit_interval :
    (∀ (features : HandFeaturesASL) (sd : SignDefinition),
      0 ≤ match_static_sign features sd ∧ match_static_sign features sd ≤ 1) ∧
    (∀ (mf : Option MotionFeaturesASL) (sd : SignDefinition),
      0 ≤ match_dynamic_sign mf sd ∧ match_dynamic_sign mf sd ≤ 1) ∧
    (∀ hand : List Landmark,
      0 ≤ (recognize_static_sign hand).2 ∧ (recognize_static_sign hand).2 ≤ 1) ∧
    (∀ (sq : ℚ → ℚ) (seq : List (List Landmark)),
      0 ≤ (recognize_dynamic_sign sq seq).2 ∧
        (recognize_dynamic_sign sq seq).2 ≤ 1) ∧
    (∀ (sq : ℚ → ℚ) (pose_data : List (List Landmark)),
      0 ≤ (process_sign_language sq pose_data).2 ∧
        (process_sign_language sq pose_data).2 ≤ 1) ∧
    (∀ (predictions : List ℚ) (normalized_entropy : ℚ)
        (lmk : Option (Option (List ℕ))) (context : String)
        (history : List ℕ) (calibration_factor : ℚ),
      (∀ x ∈ predictions, 0 ≤ x ∧ x ≤ 1) →
      0 ≤ normalized_entropy ∧ normalized_entropy ≤ 1 →
      4/5 ≤ calibration_factor ∧ calibration_factor ≤ 6/5 →
      0 ≤ (calculate_confidence predictions normalized_entropy lmk context
          history calibration_factor).2 ∧
      (calculate_confidence predictions normalized_entropy lmk context
          history calibration_factor).2 ≤ 1) :=
  ⟨match_static_sign_bounds, match_dynamic_sign_bounds,
   recognize_static_conf_bounds, recognize_dynamic_conf_bounds,
   process_sign_language_bounds, calculate_confidence_bounds⟩

/-- Witness for C10 at a concrete probability vector. -/
theorem confidence_always_in_unit_interval_witness :
    0 ≤ (calculate_confidence [1/2, 1/4] 0 none "single_hand" [] 1).2 ∧
    (calculate_confidence [1/2, 1/4] 0 none "single_hand" [] 1).2 ≤ 1 :=
  confidence_always_in_unit_interval.2.2.2.2.2 [1/2, 1/4] 0 none
    "single_hand" [] 1
    (by
      intro x hx
      rcases List.mem_cons.mp hx with rfl | hx2
      · norm_num
      · rcases List.mem_singleton.mp hx2 with rfl
        norm_num)
    (by norm_num) (by norm_num)
